import Mathlib

set_option maxHeartbeats 1000000

/-!
Verification development for the Spark voice receptionist (slot-filling
dialogue engine).  The repository contains three near-duplicate iterations
of the engine:

* `server.js`, first iteration ("V1" below): AI-backed quote updates,
  phonetic UK-postcode decoder (`extractUkPostcode`), postcode
  retry-then-fallback with `postcode_attempts`.
* `server.js`, second iteration ("V2" below): deterministic slot
  extractors, `applyMinimumHours(category, jobType, hours, freq)`,
  `confirm_details_before_quote` pricing path.
* `src/unnamed/part_000` ("P0" below): the fullest deterministic
  orchestrator, with `quoteCriticalMissing`, `applyMinimumHours(data)`,
  `forceGbpInQuoteResponse` and the complete stage machine.

Everything below is a shallow embedding of those JavaScript sources:
strings are Lean `String`s (lists of characters), JS numbers that can be
fractional (hours, visit frequency, extracted numbers) are `ℚ`, counters
are `ℕ`.  Network calls (OpenAI extraction, Make webhooks) are modelled as
oracle inputs: an `Option` value standing for the validated response, with
`none` for any failure, exactly as the code treats them.
-/

namespace Spark

/-! ### Character and string primitives

JS semantics used by the sources: `toLowerCase` / `toUpperCase` (only
ASCII letters occur in case-shifted positions), `String.prototype.includes`,
`trim`, and `replace(/\s+/g, " ")`.
-/

def isWsC (c : Char) : Bool := c = ' ' || c = '\t' || c = '\n' || c = '\r'

def isUpperAZ (c : Char) : Bool := decide ('A' ≤ c) && decide (c ≤ 'Z')

def isLowerAZ (c : Char) : Bool := decide ('a' ≤ c) && decide (c ≤ 'z')

def isDigit09 (c : Char) : Bool := decide ('0' ≤ c) && decide (c ≤ '9')

def lowerC (c : Char) : Char := if isUpperAZ c then Char.ofNat (c.toNat + 32) else c

def upperC (c : Char) : Char := if isLowerAZ c then Char.ofNat (c.toNat - 32) else c

def lowerStr (s : String) : String := ⟨s.data.map lowerC⟩

def upperStr (s : String) : String := ⟨s.data.map upperC⟩

/-- `segPref n l` : `n` is a leading segment of `l` (used for `includes`). -/
def segPref : List Char → List Char → Bool
  | [], _ => true
  | _ :: _, [] => false
  | a :: as, b :: bs => a = b && segPref as bs

/-- `hasSeg hay n` : JS `hay.includes(n)` on character lists. -/
def hasSeg (hay n : List Char) : Bool :=
  match hay with
  | [] => segPref n []
  | _ :: rest => segPref n hay || hasSeg rest n

/-- JS `hay.includes(needle)`. -/
def strIncl (hay needle : String) : Bool := hasSeg hay.data needle.data

/-- JS `list.some((x) => hay.includes(x))`. -/
def inclAny (hay : String) (l : List String) : Bool := l.any (fun x => strIncl hay x)

/-- JS `n.startsWith(p)` on strings. -/
def strStarts (s p : String) : Bool := segPref p.data s.data

/-- JS `s.trim()` (whitespace from both ends). -/
def trimWs (s : String) : String :=
  ⟨((s.data.dropWhile isWsC).reverse.dropWhile isWsC).reverse⟩

/-- Split a character list into maximal runs of non-whitespace characters
(accumulator holds the current word, reversed). -/
def splitWsAcc (cur : List Char) : List Char → List (List Char)
  | [] => if cur = [] then [] else [cur.reverse]
  | c :: rest =>
    if isWsC c then
      if cur = [] then splitWsAcc [] rest else cur.reverse :: splitWsAcc [] rest
    else splitWsAcc (c :: cur) rest

def splitWs (l : List Char) : List (List Char) := splitWsAcc [] l

def joinWords : List (List Char) → List Char
  | [] => []
  | [w] => w
  | w :: ws => w ++ ' ' :: joinWords ws

/-- JS `String(s).replace(/\s+/g, " ").trim()` (part_000's `normalizeSpaces`):
collapsing every whitespace run to one space and trimming is the same as
splitting into words and rejoining with single spaces. -/
def normalizeSpaces (s : String) : String := ⟨joinWords (splitWs s.data)⟩

/-- part_000's `lower(s)`: `normalizeSpaces(s).toLowerCase()`. -/
def lowNorm (s : String) : String := lowerStr (normalizeSpaces s)

/-! ### Currency lock (all three iterations)

`containsDollar` is textually identical in the three files. -/

/-- `containsDollar(text)`: lowercase, then check for `$`, `usd`, `dollar`, `bucks`. -/
def containsDollar (t : String) : Bool :=
  let s := lowerStr t
  strIncl s "$" || strIncl s "usd" || strIncl s "dollar" || strIncl s "bucks"

/-- V1 fixed pounds-only correction sentence (`safeSpeak`). -/
def gbpFixV1 : String :=
  "Sorry, that’s in pounds. We keep everything in £. Is the cleaning for a home or for a business premises?"

/-- V1 `safeSpeak(text)`. -/
def safeSpeak (t : String) : String := if containsDollar t then gbpFixV1 else t

/-- V2 fixed pounds-only correction sentence (`enforceGbpOnlySpoken`). -/
def gbpFixV2 : String :=
  "Sorry, I only quote in pounds, so I will use £. Is the cleaning for a home or for a business premises?"

/-- JS `t.replaceAll("$", "£")`. -/
def replaceDollarPound (t : String) : String :=
  ⟨t.data.map (fun c => if c = '$' then '£' else c)⟩

/-- V2 `enforceGbpOnlySpoken(text)`. -/
def enforceGbpOnlySpoken (t : String) : String :=
  if containsDollar t then gbpFixV2 else replaceDollarPound t

/-- P0 fixed pounds-only correction sentence (`ensureGbpSpeech`). -/
def gbpFixP0 : String :=
  "Sorry, I only quote in pounds. Is the cleaning for a home or for a business premises?"

/-- P0 `ensureGbpSpeech(text)`. -/
def ensureGbpSpeech (t : String) : String := if containsDollar t then gbpFixP0 else t

/-! ### V1 postcode decoder (`server.js` first iteration, lines 106–181)

`extractUkPostcode` supports letter-by-letter, NATO words, digit words,
`"double u"`, bare alphanumeric chunks, and a phonetic-spelling scan for
`<letter> (for|as in|like) <word>` whose captured letters are prepended. -/

def isUpAlnum (c : Char) : Bool := isUpperAZ c || isDigit09 c

def isLowAlnum (c : Char) : Bool := isLowerAZ c || isDigit09 c

/-- `DIGIT_WORDS` table. -/
def digitWords : List (String × Char) :=
  [("zero", '0'), ("oh", '0'), ("one", '1'), ("two", '2'), ("three", '3'),
   ("four", '4'), ("five", '5'), ("six", '6'), ("seven", '7'), ("eight", '8'),
   ("nine", '9')]

/-- `NATO` table. -/
def natoWords : List (String × Char) :=
  [("alpha", 'A'), ("bravo", 'B'), ("charlie", 'C'), ("delta", 'D'), ("echo", 'E'),
   ("foxtrot", 'F'), ("golf", 'G'), ("hotel", 'H'), ("india", 'I'), ("juliet", 'J'),
   ("kilo", 'K'), ("lima", 'L'), ("mike", 'M'), ("november", 'N'), ("oscar", 'O'),
   ("papa", 'P'), ("quebec", 'Q'), ("romeo", 'R'), ("sierra", 'S'), ("tango", 'T'),
   ("uniform", 'U'), ("victor", 'V'), ("whiskey", 'W'), ("xray", 'X'), ("x-ray", 'X'),
   ("yankee", 'Y'), ("zulu", 'Z')]

/-- `Map.get` on the two tables above (keys compared as whole tokens). -/
def lookupTok : List (String × Char) → List Char → Option Char
  | [], _ => none
  | (k, v) :: rest, t => if k.data = t then some v else lookupTok rest t

/-- Whitespace or comma: the `(^|[\s,])` boundary class of the phonetic regex. -/
def isSepC (c : Char) : Bool := isWsC c || c = ','

/-- Tail of one phonetic-spelling match, after the captured letter:
`\s*(for|as in|like)\s+([a-z]+)` on lowercased text.  Returns the rest of
the input after the match, or `none`.  The keywords start with
non-whitespace and the example word is a maximal letter run, so greedy
matching without backtracking is exact here. -/
def phonKwTail (a : List Char) : Option (List Char) :=
  if segPref "for".data a then some (a.drop 3)
  else if segPref "as in".data a then some (a.drop 5)
  else if segPref "like".data a then some (a.drop 4)
  else none

def phonWordTail (b : List Char) : Option (List Char) :=
  if b.length = (b.dropWhile isWsC).length then none
  else
    match b.dropWhile isWsC with
    | x :: xs => if isLowerAZ x then some (List.dropWhile isLowerAZ (x :: xs)) else none
    | [] => none

def parsePhonTail (l : List Char) : Option (List Char) :=
  (phonKwTail (l.dropWhile isWsC)).bind phonWordTail

/-- The `/(^|[\s,])([a-z])\s*(for|as in|like)\s+([a-z]+)/gi` exec loop:
scan left to right over the lowercased text, `bOk` records whether the
current position is the start of the text or preceded by `[\s,]`, and a
successful match contributes its captured letter (uppercased) and resumes
after the match.  Every step consumes at least one character, so fuel
equal to the text length is exact. -/
def phonScanF : Nat → Bool → List Char → List Char
  | 0, _, _ => []
  | _ + 1, _, [] => []
  | fuel + 1, bOk, c :: rest =>
    if bOk && isLowerAZ c then
      match parsePhonTail rest with
      | some r => upperC c :: phonScanF fuel false r
      | none => phonScanF fuel (isSepC c) rest
    else phonScanF fuel (isSepC c) rest

/-- Collected phonetic letters of `extractUkPostcode` (on the raw text,
case-insensitively: modelled by lowercasing first). -/
def phoneticLetters (text : String) : List Char :=
  phonScanF (text.data.length + 1) true (text.data.map lowerC)

/-- Characters kept by `.replace(/[^a-z0-9\s-]/g, " ")` (after lowercasing). -/
def keepC (c : Char) : Bool := isLowerAZ c || isDigit09 c || isWsC c || c = '-'

/-- `cleaned.split(" ").filter(Boolean)` after lowercasing, punctuation
replacement and whitespace collapsing: the nonempty whitespace-separated
tokens. -/
def pcTokens (text : String) : List (List Char) :=
  splitWs ((text.data.map lowerC).map (fun c => if keepC c then c else ' '))

/-- One token of the decoding loop (all cases except the `"double" "u"`
pair, which needs lookahead): single letter, NATO word, digit word, then
bare alphanumeric chunk of length ≤ 7; anything else contributes nothing. -/
def mapTok (t : List Char) : List Char :=
  match t with
  | [c] =>
    if isLowerAZ c then [upperC c]
    else if isDigit09 c then [c] else []
  | _ =>
    match lookupTok natoWords t with
    | some v => [v]
    | none =>
      match lookupTok digitWords t with
      | some v => [v]
      | none =>
        if t ≠ [] && t.all isLowAlnum && t.length ≤ 7 then t.map upperC else []

/-- The token loop of `extractUkPostcode`, including the
`"double" "u" → W` lookahead (which consumes both tokens). -/
def mapToks : List (List Char) → List (List Char)
  | [] => []
  | [t] => [mapTok t]
  | t :: u :: rest =>
    if t = "double".data && u = "u".data then ['W'] :: mapToks rest
    else mapTok t :: mapToks (u :: rest)

/-- `looksLikeUkPostcode(compact)`: `/^[A-Z]{1,2}[0-9][A-Z0-9]?[0-9][A-Z]{2}$/`,
written as the exhaustive shape split of that regex by length. -/
def looksLikeL (l : List Char) : Bool :=
  match l with
  | [a, b, c, d, e] =>
    isUpperAZ a && isDigit09 b && isDigit09 c && isUpperAZ d && isUpperAZ e
  | [a, b, c, d, e, f] =>
    (isUpperAZ a && isUpperAZ b && isDigit09 c && isDigit09 d && isUpperAZ e && isUpperAZ f)
    || (isUpperAZ a && isDigit09 b && isUpAlnum c && isDigit09 d && isUpperAZ e && isUpperAZ f)
  | [a, b, c, d, e, f, g] =>
    isUpperAZ a && isUpperAZ b && isDigit09 c && isUpAlnum d && isDigit09 e
    && isUpperAZ f && isUpperAZ g
  | _ => false

def looksLikeUkPostcode (s : String) : Bool := looksLikeL s.data

/-- `formatUkPostcode(compact)`: insert one space before the last three
characters. -/
def formatUkPostcode (s : String) : String :=
  ⟨s.data.take (s.data.length - 3) ++ ' ' :: s.data.drop (s.data.length - 3)⟩

/-- `extractUkPostcode(raw)` (V1). -/
def extractUkPostcode (raw : String) : Option String :=
  if (trimWs raw).data = [] then none
  else
    let phon := phoneticLetters raw
    let outL := phon.map (fun c => [c]) ++ mapToks (pcTokens raw)
    let compact := outL.flatten.filter isUpAlnum
    if looksLikeL compact then some (formatUkPostcode ⟨compact⟩) else none

/-! ### The quote record

All three iterations fill the same field set (the `GetQuoteSchema` /
`emptyQuote` / `ensureState` shape).  JS numbers that can be fractional
(hours, visit frequency) are `ℚ`; room counts are also kept as `ℚ` because
the code stores raw `Number`s and only floors them at some call sites. -/

structure Extra where
  name : String
  quantity : ℚ
deriving DecidableEq, Repr

structure QuoteData where
  intent : String
  service_category : String
  domestic_service_type : String
  commercial_service_type : String
  domestic_property_type : String
  commercial_property_type : String
  job_type : String
  bedrooms : ℚ
  bathrooms : ℚ
  toilets : ℚ
  kitchens : ℚ
  postcode : String
  preferred_hours : ℚ
  visit_frequency_per_week : ℚ
  areas_scope : String
  extras : List Extra
  notes : String
deriving DecidableEq, Repr

/-- Both halves of the mutual-exclusivity invariant (§3 of the spec):
the domestic pair. -/
def domPairEmpty (d : QuoteData) : Prop :=
  d.domestic_service_type = "" ∧ d.domestic_property_type = ""

/-- The commercial pair. -/
def commPairEmpty (d : QuoteData) : Prop :=
  d.commercial_service_type = "" ∧ d.commercial_property_type = ""

/-- At most one of the domestic/commercial field pairs is populated. -/
def exclusiveQ (d : QuoteData) : Prop := domPairEmpty d ∨ commPairEmpty d

instance : DecidablePred domPairEmpty := fun d => by unfold domPairEmpty; infer_instance

instance : DecidablePred commPairEmpty := fun d => by unfold commPairEmpty; infer_instance

instance : DecidablePred exclusiveQ := fun d => by unfold exclusiveQ; infer_instance

/-! ### V1 (`server.js` first iteration): category detection, empty quote,
call state, and the `/call/input` handler. -/

/-- V1/V2 `detectCategory(text)`: keyword sets for each side; a category is
returned only when exactly one side matches. -/
def detectCategory (text : String) : Option String :=
  let lower := lowerStr text
  let d := inclAny lower ["home", "house", "flat", "apartment", "studio", "tenancy",
    "landlord", "move out", "move-out"]
  let c := inclAny lower ["office", "shop", "warehouse", "school", "clinic", "gym",
    "venue", "site", "business", "restaurant", "workplace"]
  if d && !c then some "domestic"
  else if c && !d then some "commercial"
  else none

/-- V1 `emptyQuote()`: note `service_category` starts at `"domestic"`. -/
def emptyQuote : QuoteData where
  intent := "get_quote"
  service_category := "domestic"
  domestic_service_type := ""
  commercial_service_type := ""
  domestic_property_type := ""
  commercial_property_type := ""
  job_type := ""
  bedrooms := 0
  bathrooms := 0
  toilets := 0
  kitchens := 0
  postcode := ""
  preferred_hours := 0
  visit_frequency_per_week := 0
  areas_scope := ""
  extras := []
  notes := ""

structure V1State where
  transcript : List String
  stage : String
  quote : QuoteData
  postcode_attempts : Nat
deriving DecidableEq, Repr

/-- V1 `initState()`. -/
def initStateV1 : V1State where
  transcript := []
  stage := "need_category"
  quote := emptyQuote
  postcode_attempts := 0

structure V1Result where
  state : V1State
  rawSpoken : List String
deriving DecidableEq, Repr

/-- Every V1 utterance is spoken through `gatherSay`, which applies
`safeSpeak` at the output boundary; `rawSpoken` holds the texts handed to
`gatherSay` and this map is the boundary. -/
def v1SpokenOutputs (r : V1Result) : List String := r.rawSpoken.map safeSpeak

def v1NoCatch : String := "Sorry, I didn’t catch that. Is it for a home or for a business premises?"

def v1PostcodeAsk : String :=
  "Thanks. What’s the postcode? You can say it letter by letter, or like S for Sun, W as in Winter."

def v1PostcodeRetry : String :=
  "Sorry, I didn’t get that. Please say the postcode slowly, letter by letter. You can also say S for Sun style."

def v1FallbackAsk : String :=
  "No worries. Postcodes are tricky on calls. What town are you in, and the nearest landmark or street name?"

def v1Placeholder : String :=
  "Thanks. Tell me the bedrooms and bathrooms, and we’ll carry on from there."

/-- V1 `POST /call/input` handler.  `aiResp` is the oracle for
`aiExtractQuoteDelta`: `some q` models a response that passed
`GetQuoteSchema.parse`, `none` models every failure path (no API key,
timeout, malformed output), in which case the handler keeps the current
quote.  Note line 372: `if (aiQuote) state.quote = aiQuote;` — the whole
draft is replaced. -/
def handleInputV1 (s0 : V1State) (speech0 : String) (aiResp : Option QuoteData) : V1Result :=
  let speech := trimWs speech0
  if speech.data = [] then
    { state := s0, rawSpoken := [v1NoCatch] }
  else
    let s1 : V1State := { s0 with transcript := s0.transcript ++ [speech] }
    let s : V1State :=
      match aiResp with
      | some q => { s1 with quote := q }
      | none => s1
    if s.stage = "need_category" then
      let cat :=
        match detectCategory speech with
        | some c => c
        | none => s.quote.service_category
      if cat ≠ "domestic" ∧ cat ≠ "commercial" then
        { state := s,
          rawSpoken := ["No problem. Is the cleaning for a home or for a business premises?"] }
      else
        let s := { s with quote := { s.quote with service_category := cat },
                          stage := "need_service_type" }
        if cat = "domestic" then
          { state := s,
            rawSpoken := ["Thanks. What type of cleaning do you need for the home? For example end of tenancy, deep clean, regular cleaning, post-construction, or disinfection."] }
        else
          { state := s,
            rawSpoken := ["Thanks. What type of commercial cleaning do you need? For example regular commercial cleaning, deep clean, post-construction, or disinfection."] }
    else if s.stage = "need_service_type" then
      let q := s.quote
      let ok := (q.service_category = "domestic" ∧ trimWs q.domestic_service_type ≠ "")
        ∨ (q.service_category = "commercial" ∧ trimWs q.commercial_service_type ≠ "")
      if ¬ ok then
        { state := s,
          rawSpoken := ["Sorry, which type of cleaning is it? End of tenancy, deep clean, regular cleaning, post-construction, or disinfection."] }
      else
        let s := { s with stage := "need_property_type" }
        if q.service_category = "domestic" then
          { state := s,
            rawSpoken := ["Thanks. What’s the property type? A studio flat, a flat, or a house? If it’s a house, is it terraced, semi-detached, or detached?"] }
        else
          { state := s,
            rawSpoken := ["Thanks. What type of premises is it? For example office, shop, warehouse, school, clinic, gym, or event venue."] }
    else if s.stage = "need_property_type" then
      { state := { s with stage := "need_postcode" }, rawSpoken := [v1PostcodeAsk] }
    else if s.stage = "need_postcode" then
      match extractUkPostcode speech with
      | none =>
        let attempts := s.postcode_attempts + 1
        if attempts ≥ 2 then
          { state := { s with postcode_attempts := attempts,
                              stage := "postcode_fallback",
                              quote := { s.quote with notes := s.quote.notes
                                ++ " Postcode capture failed. Caller said: \"" ++ speech ++ "\"." } },
            rawSpoken := [v1FallbackAsk] }
        else
          { state := { s with postcode_attempts := attempts }, rawSpoken := [v1PostcodeRetry] }
      | some parsed =>
        { state := { s with stage := "next_placeholder",
                            quote := { s.quote with postcode := parsed } },
          rawSpoken := ["Thanks. I got " ++ parsed ++ ". Next, how many bedrooms and bathrooms is it?"] }
    else if s.stage = "postcode_fallback" then
      { state := { s with stage := "next_placeholder",
                          quote := { s.quote with notes := s.quote.notes
                            ++ " Fallback location: \"" ++ speech ++ "\"." } },
        rawSpoken := ["Thanks. Next, how many bedrooms and bathrooms is it?"] }
    else
      { state := s, rawSpoken := [v1Placeholder] }

/-! ### V2 (`server.js` second iteration): yes/no parsing, minimum hours,
and the `confirm_details_before_quote` pricing path. -/

/-- V2 `parseYesNo(text)`. -/
def parseYesNoV2 (text : String) : String :=
  let t := lowerStr text
  if inclAny t ["yes", "yeah", "yep", "sure", "of course", "please", "ok"] then "yes"
  else if inclAny t ["no", "nope", "not", "none", "nothing"] then "no"
  else ""

/-- V2 `applyMinimumHours(category, jobType, preferredHours, visitFreqPerWeek)`. -/
def applyMinimumHoursV2 (category jobType : String) (preferredHours visitFreqPerWeek : ℚ) : ℚ :=
  let h := preferredHours
  if category = "domestic" then
    let h := if jobType = "regular" then max h 3 else h
    let h := if jobType = "one_time" then max h 5 else h
    h
  else if jobType = "one_time" then max h 5
  else if visitFreqPerWeek ≥ 3 then max h 1
  else max h 3

/-- The projections of a pricing-webhook response body that the V2
`confirm_details_before_quote` handler reads: `quote.explanation`
(already coalesced to `""` when absent) and `quote.total` (rendered;
`""` when absent, matching `?? ""`). -/
structure RespV2 where
  explanation : String
  total : String
deriving DecidableEq, Repr

def v2QuoteFallbackText (total : String) : String :=
  "Alright. That comes to £" ++ total
    ++ ". That’s an estimate based on what you’ve told me and we confirm on arrival if anything changes. Want me to get that booked in?"

structure V2ConfirmResult where
  stage : String
  data : QuoteData
  rawSpoken : List String
deriving DecidableEq, Repr

/-- Output boundary of the V2 fragment: `sayGather` applies
`enforceGbpOnlySpoken` to every text. -/
def v2SpokenOutputs (r : V2ConfirmResult) : List String := r.rawSpoken.map enforceGbpOnlySpoken

/-- V2 `confirm_details_before_quote` handler (`server.js` lines
1255–1319).  `resp` is the oracle for `callMakeGetQuote`: `some r` is a
transport-successful response, `none` a thrown error.  On success the
stage becomes `offer_booking` and the explanation (or fallback total
sentence) plus booking offer is spoken through `enforceGbpOnlySpoken`
(once here and once more in `sayGather`). -/
def handleConfirmQuoteV2 (d : QuoteData) (speech : String) (resp : Option RespV2) :
    V2ConfirmResult :=
  if parseYesNoV2 speech = "no" then
    { stage := "free_edit_note", data := d,
      rawSpoken := ["No problem. What would you like to change?"] }
  else
    let jobType :=
      if d.job_type ≠ "" then d.job_type
      else if d.domestic_service_type = "Regular Cleaning" then "regular" else ""
    let freq := d.visit_frequency_per_week
    let domHours := applyMinimumHoursV2 "domestic"
      (if jobType ≠ "" then jobType else "regular") d.preferred_hours freq
    let d :=
      if d.service_category = "domestic" ∧ d.domestic_service_type = "Regular Cleaning" then
        { d with preferred_hours := domHours }
      else d
    let commHours := applyMinimumHoursV2 "commercial"
      (if jobType ≠ "" then jobType else "one_time") d.preferred_hours freq
    let d :=
      if d.service_category = "commercial" then
        { d with preferred_hours := commHours }
      else d
    match resp with
    | some r =>
      let explanation :=
        if r.explanation ≠ "" then r.explanation else v2QuoteFallbackText r.total
      { stage := "offer_booking", data := d,
        rawSpoken := [enforceGbpOnlySpoken (explanation ++ " Want me to get that booked in?")] }
    | none =>
      { stage := "need_postcode", data := d,
        rawSpoken := ["I couldn’t pull the quote through right now. Let’s try again. What’s the postcode?"] }

/-! ### P0 (`src/unnamed/part_000`): extractors -/

/-- Digit run to a natural number. -/
def digitsToNat (l : List Char) : Nat :=
  l.foldl (fun acc c => acc * 10 + (c.toNat - 48)) 0

/-- First match of `/(\d+(\.\d+)?)/` as a number (P0 `extractNumber`).
The leading digit run is maximal and the fractional part is taken only
when a dot is directly followed by a digit, exactly as the greedy regex
does. -/
def scanNum : List Char → Option ℚ
  | [] => none
  | c :: rest =>
    if isDigit09 c then
      let ds := c :: rest.takeWhile isDigit09
      let rest2 := rest.dropWhile isDigit09
      match rest2 with
      | '.' :: r3 =>
        match r3.takeWhile isDigit09 with
        | [] => some (mkRat (digitsToNat ds) 1)
        | fs => some (mkRat (digitsToNat ds * 10 ^ fs.length + digitsToNat fs) (10 ^ fs.length))
      | _ => some (mkRat (digitsToNat ds) 1)
    else scanNum rest

/-- P0 `extractNumber(s)` (`Number.isFinite` always holds here). -/
def extractNumberP0 (s : String) : Option ℚ := scanNum s.data

/-- `\s*\d[A-Z]{2}` for the P0 postcode regex, returning the consumed text. -/
def pcTail (l : List Char) : Option (List Char) :=
  match l.dropWhile isWsC with
  | d :: e :: f :: _ =>
    if isDigit09 d && isUpperAZ e && isUpperAZ f then
      some (l.takeWhile isWsC ++ [d, e, f])
    else none
  | _ => none

/-- `\d[A-Z\d]?\s*\d[A-Z]{2}` with the greedy optional character tried
first, as the regex engine does. -/
def pcAfterLetters (l : List Char) : Option (List Char) :=
  match l with
  | [] => none
  | d :: rest =>
    if isDigit09 d then
      match rest with
      | x :: rest2 =>
        if isUpAlnum x then
          match pcTail rest2 with
          | some t => some (d :: x :: t)
          | none =>
            match pcTail rest with
            | some t => some (d :: t)
            | none => none
        else
          match pcTail rest with
          | some t => some (d :: t)
          | none => none
      | [] => none
    else none

/-- Match of `/([A-Z]{1,2}\d[A-Z\d]?\s*\d[A-Z]{2})/` anchored at the head,
two leading letters tried before one. -/
def pcMatchAt (l : List Char) : Option (List Char) :=
  match l with
  | [] => none
  | a :: rest =>
    if isUpperAZ a then
      match rest with
      | b :: rest2 =>
        if isUpperAZ b then
          match pcAfterLetters rest2 with
          | some t => some (a :: b :: t)
          | none =>
            match pcAfterLetters rest with
            | some t => some (a :: t)
            | none => none
        else
          match pcAfterLetters rest with
          | some t => some (a :: t)
          | none => none
      | [] => none
    else none

/-- Leftmost match of the P0 postcode pattern. -/
def pcFind : List Char → Option (List Char)
  | [] => none
  | c :: rest =>
    match pcMatchAt (c :: rest) with
    | some m => some m
    | none => pcFind rest

/-- JS `.replace(/\s+/, " ")` (first whitespace run only). -/
def replFirstWs : List Char → List Char
  | [] => []
  | c :: rest => if isWsC c then ' ' :: rest.dropWhile isWsC else c :: replFirstWs rest

/-- P0 `extractPostcode(s)`: uppercase the normalized text, take the first
`[A-Z]{1,2}\d[A-Z\d]?\s*\d[A-Z]{2}` match, single-space it; `""` when
there is no match. -/
def extractPostcodeP0 (s : String) : String :=
  match pcFind ((normalizeSpaces s).data.map upperC) with
  | some m => ⟨replFirstWs m⟩
  | none => ""

/-- P0 `isAffirmative(s)`. -/
def isAffirmative (s : String) : Bool :=
  inclAny (lowNorm s)
    ["yes", "yeah", "yep", "correct", "that’s right", "thats right", "sure", "ok", "okay"]

/-- P0 `isNegative(s)`: exact word or word followed by a space, at the
start of the normalized lowercase text. -/
def isNegative (s : String) : Bool :=
  let t := lowNorm s
  ["no", "nope", "none", "nothing", "not", "don’t", "dont"].any
    (fun x => t = x || strStarts t (x ++ " "))

/-- P0 `detectServiceCategoryFromSpeech(s)` (note the extra `"property"`
domestic hint compared to V1's `detectCategory`); `""` when ambiguous or
silent. -/
def detectServiceCategoryFromSpeech (s : String) : String :=
  let t := lowNorm s
  let d := inclAny t ["home", "house", "flat", "apartment", "studio", "tenancy",
    "landlord", "move out", "move-out", "property"]
  let c := inclAny t ["office", "shop", "warehouse", "school", "clinic", "gym",
    "venue", "site", "business", "restaurant", "workplace"]
  if d && !c then "domestic"
  else if c && !d then "commercial"
  else ""

/-- P0 `detectPartialAreas(s)`. -/
def detectPartialAreas (s : String) : String :=
  let t := lowNorm s
  let hits : List String :=
    (if strIncl t "only kitchen" || strIncl t "just kitchen" || t = "kitchen"
      then ["kitchen only"] else [])
    ++ (if strIncl t "only bathroom" || strIncl t "just bathroom" || t = "bathroom"
      then ["bathroom only"] else [])
    ++ (if strIncl t "toilets only" || strIncl t "only toilets" || strIncl t "just toilets"
          || strIncl t "wc only"
      then ["toilets only"] else [])
  if hits = [] then "" else String.intercalate ", " hits

/-- P0 `serviceTypeFromSpeech(category, s)`. -/
def serviceTypeFromSpeech (category : String) (s : String) : String :=
  let t := lowNorm s
  if category = "domestic" then
    if strIncl t "end of tenancy" || strIncl t "move out" || strIncl t "move-out" then
      "End of Tenancy Clean"
    else if strIncl t "deep" then "Deep Clean"
    else if strIncl t "post" && (strIncl t "construction" || strIncl t "builder"
        || strIncl t "after builders" || strIncl t "after-builder" || strIncl t "after builder") then
      "Post-construction Clean"
    else if strIncl t "disinfect" || strIncl t "saniti" || strIncl t "sanit" then
      "Disinfection / Sanitisation"
    else if strIncl t "regular" || strIncl t "standard" || strIncl t "weekly"
        || strIncl t "fortnight" || strIncl t "bi-weekly" || strIncl t "every other week"
        || strIncl t "monthly" || strIncl t "recurring" || strIncl t "ongoing" then
      "Regular Cleaning"
    else ""
  else if category = "commercial" then
    if strIncl t "regular" then "Regular Commercial Cleaning"
    else if strIncl t "deep" then "Deep Clean"
    else if strIncl t "post" && (strIncl t "construction" || strIncl t "builder"
        || strIncl t "after builders" || strIncl t "after builder") then
      "Post-construction Clean"
    else if strIncl t "disinfect" || strIncl t "saniti" || strIncl t "sanit" then
      "Disinfection / Sanitisation"
    else if strIncl t "office cleaning" || strIncl t "commercial cleaning" then
      "Regular Commercial Cleaning"
    else ""
  else ""

/-- P0 `jobTypeFromSpeech(s)`. -/
def jobTypeFromSpeech (s : String) : String :=
  let t := lowNorm s
  if strIncl t "one off" || strIncl t "one-off" || strIncl t "one time" || strIncl t "one-time"
      || strIncl t "once" then "one_time"
  else if strIncl t "ongoing" || strIncl t "regular" || strIncl t "recurring" then "regular"
  else ""

/-- P0 `frequencyFromSpeech(s)`: the fixed phrase table, then a
`"per week"` numeric fallback; ambiguous phrases and everything else give
`none`. -/
def frequencyFromSpeech (s : String) : Option ℚ :=
  let t := lowNorm s
  if inclAny t ["weekly", "once a week", "every week", "one day a week"] then some 1
  else if inclAny t ["fortnightly", "bi-weekly", "every other week", "once every two weeks",
    "alternate weeks"] then some (mkRat 1 2)
  else if inclAny t ["monthly", "once a month", "every month", "one visit a month"] then
    some (mkRat 1 4)
  else if inclAny t ["twice a week", "two times a week", "2 times a week", "2x a week"] then
    some 2
  else if inclAny t ["three times a week", "3 times a week", "3x a week"] then some 3
  else if inclAny t ["every weekday", "weekdays"] then some 5
  else if inclAny t ["daily monday to friday", "daily mon to fri", "daily monday-friday"] then
    some 5
  else if inclAny t ["daily including weekends", "every day"] then some 7
  else if strIncl t "per week" then
    match extractNumberP0 t with
    | some n => some n
    | none => none
  else none

structure PropNorm where
  value : String
  needsConfirm : Bool
deriving DecidableEq, Repr

/-- P0 `normalizeDomesticPropertyType(s)`: normalization plus the
high-risk (likely-misheard) confirmation flag. -/
def normalizeDomesticPropertyType (s : String) : PropNorm :=
  let t := lowNorm s
  if strIncl t "studio" then ⟨"Studio flat", false⟩
  else if strIncl t "flat" || strIncl t "apartment" || strIncl t "maisonette"
      || strIncl t "upstairs flat" || strIncl t "ground floor flat" then
    ⟨"Flat", false⟩
  else
    let needsConfirm := inclAny t ["semi", "semmy", "semi-d", "terrace", "terraced",
      "mid-terrace", "end terrace", "detached-ish", "flat-ish", "apartment sort of",
      "studio-type"]
    if strIncl t "semi" then ⟨"Semi-detached house", true⟩
    else if strIncl t "detached" then ⟨"Detached house", needsConfirm⟩
    else if strIncl t "terrace" || strIncl t "terraced" then ⟨"Terraced house", true⟩
    else if strIncl t "house" then ⟨"", true⟩
    else ⟨"", true⟩

/-- P0 `normalizeCommercialPropertyType(s)`. -/
def normalizeCommercialPropertyType (s : String) : PropNorm :=
  let t := lowNorm s
  if strIncl t "office" then ⟨"Office", false⟩
  else if strIncl t "school" then ⟨"School", false⟩
  else if strIncl t "clinic" || strIncl t "medical" then ⟨"Medical clinic", false⟩
  else if strIncl t "warehouse" then ⟨"Warehouse", false⟩
  else if strIncl t "commercial kitchen" || strIncl t "kitchen" then ⟨"Commercial kitchen", false⟩
  else if strIncl t "retail" || strIncl t "shop" || strIncl t "store" then ⟨"Retail shop", false⟩
  else if strIncl t "nursery" || strIncl t "daycare" || strIncl t "day care" then
    ⟨"Nursery (daycare)", false⟩
  else if strIncl t "gym" then ⟨"Gym", false⟩
  else if strIncl t "workshop" || strIncl t "industrial" then ⟨"Industrial workshop", false⟩
  else if strIncl t "venue" || strIncl t "event" then ⟨"Event venue", false⟩
  else ⟨"", true⟩

/-- The keyword → canonical-extra checks of P0 `detectExtrasMention`. -/
def extrasChecks : List (List String × String) :=
  [(["oven"], "Oven cleaning"),
   (["carpet", "carpets"], "Carpet cleaning"),
   (["upholstery", "sofa", "couch"], "Upholstery cleaning"),
   (["inside windows", "internal windows", "inside window"], "Inside windows"),
   (["limescale"], "Limescale removal"),
   (["deep toilet", "toilet deep"], "Deep toilet clean"),
   (["fridge", "freezer"], "Fridge / freezer cleaning"),
   (["cabinet", "cupboard"], "Internal cabinet cleaning"),
   (["blinds"], "Blinds dusting"),
   (["wall spot", "walls"], "Wall spot cleaning"),
   (["pet hair"], "Pet hair removal"),
   (["mold", "mould"], "Mold spot treatment"),
   (["mattress"], "Mattress steam clean"),
   (["extractor", "degrease"], "Degreasing extractor fans")]

/-- P0 `detectExtrasMention(s)`: canonical names whose keywords occur, in
table order (each check contributes its name at most once, so the final
`Set` deduplication of the source is the identity here). -/
def detectExtrasMention (s : String) : List String :=
  let t := lowNorm s
  (extrasChecks.filter (fun c => c.1.any (fun k => strIncl t k))).map (fun c => c.2)

/-- P0 `requireClarifyBeforeRefusal(speech)`. -/
def requireClarifyBeforeRefusal (speech : String) : Bool :=
  let t := lowNorm speech
  let hasCleaning := inclAny t ["clean", "cleaning", "cleaner"]
  let hasOutside := inclAny t ["plumbing", "electric", "gardening", "moving", "removal",
    "waste", "rubbish", "painting", "handyman", "repair"]
  !hasCleaning && hasOutside

/-- P0 `tryCaptureBedroomsBathrooms`: first `/(\d+)\s*bed…/` match.  The
regex alternatives all begin with the literal key, so a match is a maximal
digit run followed by optional whitespace and the key. -/
def findNumKey (key : String) : List Char → Option Nat
  | [] => none
  | c :: rest =>
    if isDigit09 c then
      if segPref key.data ((rest.dropWhile isDigit09).dropWhile isWsC) then
        some (digitsToNat (c :: rest.takeWhile isDigit09))
      else findNumKey key rest
    else findNumKey key rest

/-! ### P0: draft bookkeeping, gates, and summaries -/

def ratOfInt (i : Int) : ℚ := mkRat i 1

def ratOfNat (n : Nat) : ℚ := mkRat n 1

def flatFeeServices : List String :=
  ["End of Tenancy Clean", "Deep Clean", "Post-construction Clean", "Disinfection / Sanitisation"]

def natToStrAux : Nat → Nat → List Char
  | 0, _ => []
  | fuel + 1, n =>
    if n < 10 then [Char.ofNat (48 + n)]
    else natToStrAux fuel (n / 10) ++ [Char.ofNat (48 + n % 10)]

def natToStr (n : Nat) : String := ⟨natToStrAux (n + 1) n⟩

def fracDigits : Nat → Nat → Nat → List Char
  | 0, _, _ => []
  | fuel + 1, rem, den =>
    if rem = 0 then []
    else Char.ofNat (48 + rem * 10 / den) :: fracDigits fuel (rem * 10 % den) den

/-- JS number-to-string rendering for the rationals this system produces
(integers, and the terminating decimals 0.5/0.25 and friends). -/
def qToStr (q : ℚ) : String :=
  let sign := if q.num < 0 then "-" else ""
  let n := q.num.natAbs
  let ip := n / q.den
  let rem := n % q.den
  if rem = 0 then sign ++ natToStr ip
  else sign ++ natToStr ip ++ "." ++ ⟨fracDigits 10 rem q.den⟩

def extrasText (l : List Extra) : String :=
  String.intercalate ", " (l.map (fun e => e.name ++ " x" ++ qToStr e.quantity))

/-- P0 `makeSummaryForCaller(data)`. -/
def makeSummaryForCaller (d : QuoteData) : String :=
  if d.service_category = "domestic" then
    let s := "Just to confirm, it’s " ++ d.domestic_service_type ++ " for a "
      ++ qToStr d.bedrooms ++ "-bed " ++ d.domestic_property_type ++ ", with "
      ++ qToStr d.bathrooms ++ " bathroom"
    let s := if d.bathrooms ≠ 1 then s ++ "s" else s
    let s :=
      if flatFeeServices.contains d.domestic_service_type then
        let s2 := s ++ ", and " ++ qToStr d.toilets ++ " separate toilet"
        if d.toilets ≠ 1 then s2 ++ "s" else s2
      else s
    let s := s ++ ", postcode " ++ d.postcode ++ "."
    let s :=
      if d.domestic_service_type = "Regular Cleaning" then
        let s2 := s ++ " It’s " ++ (if d.job_type = "regular" then "ongoing" else "a one-off")
          ++ " at " ++ qToStr d.preferred_hours ++ " hours per visit, about "
          ++ qToStr d.visit_frequency_per_week ++ " visit"
        let s2 := if d.visit_frequency_per_week ≠ 1 then s2 ++ "s" else s2
        s2 ++ " per week."
      else s
    let s := if d.areas_scope ≠ "" then s ++ " You only want: " ++ d.areas_scope ++ "." else s
    let s :=
      if d.extras ≠ [] then s ++ " Extras: " ++ extrasText d.extras ++ "." else s ++ " No extras."
    s ++ " Is that all correct before I price it?"
  else
    let s := "Just to confirm, it’s " ++ d.commercial_service_type ++ " for a "
      ++ d.commercial_property_type ++ ", postcode " ++ d.postcode ++ "."
    let s := s ++ " This is "
      ++ (if d.job_type = "regular" then "ongoing" else "a one-time clean") ++ "."
    let s := s ++ " Toilets: " ++ qToStr d.toilets ++ ". Kitchens: " ++ qToStr d.kitchens ++ "."
    let s := s ++ " Hours: " ++ qToStr d.preferred_hours ++ "."
    let s :=
      if d.job_type = "regular" then
        let s2 := s ++ " Frequency: " ++ qToStr d.visit_frequency_per_week ++ " visit"
        let s2 := if d.visit_frequency_per_week ≠ 1 then s2 ++ "s" else s2
        s2 ++ " per week."
      else s
    let s :=
      if d.extras ≠ [] then s ++ " Extras: " ++ extrasText d.extras ++ "." else s ++ " No extras."
    s ++ " Is that all correct before I price it?"

/-- P0 `upsertExtra`: replace the first entry with this name, else append. -/
def upsertExtra : List Extra → String → ℚ → List Extra
  | [], name, qty => [⟨name, qty⟩]
  | e :: rest, name, qty =>
    if e.name = name then ⟨name, qty⟩ :: rest else e :: upsertExtra rest name qty

/-- P0 `ensureExtrasArrayHasObjects`: drop malformed entries (empty name or
negative quantity; the `typeof`/`Number` coercions are identities in this
model). -/
def ensureExtrasClean (l : List Extra) : List Extra :=
  l.filter (fun e => decide (e.name ≠ "") && decide (0 ≤ e.quantity))

/-- The two sequential statements P0 uses at each floor `m`:
`if (h > 0 && h < m) h = m; if (h === 0) h = m;`. -/
def bumpFloor (h m : ℚ) : ℚ :=
  if (if 0 < h ∧ h < m then m else h) = 0 then m
  else if 0 < h ∧ h < m then m else h

/-- P0 `applyMinimumHours(data)`: floors applied only for domestic
"Regular Cleaning" and for commercial jobs. -/
def applyMinimumHoursP0 (d : QuoteData) : QuoteData :=
  if d.service_category = "domestic" then
    if d.domestic_service_type = "Regular Cleaning" then
      if d.job_type = "one_time" then
        { d with preferred_hours := bumpFloor d.preferred_hours 5 }
      else if d.job_type = "regular" then
        { d with preferred_hours := bumpFloor d.preferred_hours 3 }
      else d
    else d
  else if d.service_category = "commercial" then
    if d.job_type = "one_time" then
      { d with preferred_hours := bumpFloor d.preferred_hours 5 }
    else if d.job_type = "regular" then
      if d.visit_frequency_per_week ≥ 3 then
        { d with preferred_hours := bumpFloor d.preferred_hours 1 }
      else
        { d with preferred_hours := bumpFloor d.preferred_hours 3 }
    else d
  else d

/-- P0 `quoteCriticalMissing(data)`: name of the first missing
quote-critical item, `""` when none (the `Number.isFinite` guards always
hold for `ℚ`). -/
def quoteCriticalMissing (d : QuoteData) : String :=
  if d.service_category = "" then "service category"
  else if d.service_category = "domestic" then
    if d.domestic_service_type = "" then "domestic service type"
    else if d.domestic_property_type = "" then "domestic property type"
    else if d.postcode = "" then "postcode"
    else if d.bedrooms < 0 then "bedrooms"
    else if d.bathrooms < 0 then "bathrooms"
    else
      let hourlyMiss :=
        if ["Regular Cleaning"].contains d.domestic_service_type then
          if d.job_type = "" then "job type"
          else if ¬ 0 < d.preferred_hours then "hours per visit"
          else if ¬ 0 < d.visit_frequency_per_week then "visit frequency"
          else ""
        else ""
      if hourlyMiss ≠ "" then hourlyMiss
      else if flatFeeServices.contains d.domestic_service_type ∧ d.toilets < 0 then "toilets"
      else ""
  else if d.service_category = "commercial" then
    if d.commercial_service_type = "" then "commercial service type"
    else if d.commercial_property_type = "" then "commercial property type"
    else if d.job_type = "" then "job type"
    else if d.postcode = "" then "postcode"
    else if d.toilets < 0 then "toilets"
    else if d.kitchens < 0 then "kitchens"
    else if ¬ 0 < d.preferred_hours then "hours expected"
    else if d.job_type = "regular" ∧ ¬ 0 < d.visit_frequency_per_week then "visit frequency"
    else ""
  else "service category"

def isIntNonneg (q : ℚ) : Bool := q.den = 1 && decide (0 ≤ q)

/-- P0 `GetQuoteSchema.safeParse` as a boolean check: literal intent,
category enum, non-negative integer room counts, nonempty postcode
(`z.string().min(1)`), non-negative hours and frequency, extras of
nonempty name and non-negative integer quantity. -/
def getQuoteSchemaCheck (d : QuoteData) : Bool :=
  decide (d.intent = "get_quote")
  && (decide (d.service_category = "domestic") || decide (d.service_category = "commercial"))
  && isIntNonneg d.bedrooms && isIntNonneg d.bathrooms
  && isIntNonneg d.toilets && isIntNonneg d.kitchens
  && decide (d.postcode ≠ "")
  && decide (0 ≤ d.preferred_hours) && decide (0 ≤ d.visit_frequency_per_week)
  && d.extras.all (fun e => decide (e.name ≠ "") && isIntNonneg e.quantity)

structure BookingData where
  full_name : String
  phone : String
  email : String
  address : String
  postcode : String
  preferred_date : String
  preferred_time : String
deriving DecidableEq, Repr

def emptyBooking : BookingData :=
  ⟨"", "", "", "", "", "", ""⟩

/-- P0 `ConfirmBookingSchema.safeParse`: every field `min(1)`. -/
def confirmBookingCheck (b : BookingData) : Bool :=
  decide (b.full_name ≠ "") && decide (b.phone ≠ "") && decide (b.email ≠ "")
  && decide (b.address ≠ "") && decide (b.postcode ≠ "")
  && decide (b.preferred_date ≠ "") && decide (b.preferred_time ≠ "")

/-- The projections of a pricing-webhook response that P0 reads:
`raw` is the serialized body (`JSON.stringify`) checked by
`forceGbpInQuoteResponse`, `explanation` is
`data.explanation || data.message || data.speech || ""`, and `total` is
`data.total || data.total_price || data.price || data.amount` rendered,
with `""` for a missing/falsy value. -/
structure P0Resp where
  raw : String
  explanation : String
  total : String
deriving DecidableEq, Repr

/-- Oracles for the two Make webhooks: `none` / `false` model transport
failure (`{ ok: false }`). -/
structure P0Oracles where
  getQuote : Option P0Resp
  bookingOk : Bool
deriving DecidableEq, Repr

structure P0State where
  stage : String
  transcript : List String
  data : QuoteData
  extrasImpactSpoken : Bool
  pendingExtraName : String
  confirmSummaryPending : Bool
  quoteResult : Option P0Resp
  booking : BookingData
deriving DecidableEq, Repr

/-- The P0 quote record as reset by `/call/start` (`intent` starts empty;
`pendingExtraQty` of the source is never read and is omitted). -/
def p0EmptyData : QuoteData :=
  { emptyQuote with intent := "", service_category := "" }

/-- P0 state after `POST /call/start`. -/
def p0InitState : P0State where
  stage := "need_category"
  transcript := []
  data := p0EmptyData
  extrasImpactSpoken := false
  pendingExtraName := ""
  confirmSummaryPending := false
  quoteResult := none
  booking := emptyBooking

structure P0Result where
  state : P0State
  rawSpoken : List String
  invokedGetQuote : Bool
  invokedBooking : Bool
  hangup : Bool
deriving DecidableEq, Repr

/-- Every P0 utterance flows through `say`/`sayGather`, both of which apply
`ensureGbpSpeech`; `rawSpoken` holds the texts handed to them and this map
is that boundary. -/
def p0SpokenOutputs (r : P0Result) : List String := r.rawSpoken.map ensureGbpSpeech

def p0Ret (s : P0State) (spoken : List String) : P0Result :=
  { state := s, rawSpoken := spoken, invokedGetQuote := false,
    invokedBooking := false, hangup := false }

def p0ImpactSentence : String :=
  "Just so you know, adding that will increase the time needed to finish the job, and the price will go up slightly."

/-- P0 `setAreasScopeIfAny(state, speech)`. -/
def setAreasScopeIfAny (s : P0State) (speech : String) : P0State :=
  if s.data.areas_scope = "" then
    let scope := detectPartialAreas speech
    if scope ≠ "" then
      let d := { s.data with areas_scope := scope }
      let d :=
        if d.service_category = "domestic" then
          { d with domestic_service_type := "Deep Clean" }
        else d
      { s with data := d }
    else s
  else s

/-- The extras-mention prelude of P0 `/call/input`: speak the impact
disclosure once per call, then queue every newly mentioned extra with
quantity 0. -/
def addMentioned (s : P0State) (mentioned : List String) : P0State × List String :=
  if mentioned = [] then (s, [])
  else
    let spoke := if s.extrasImpactSpoken then ([] : List String) else [p0ImpactSentence]
    let s := { s with extrasImpactSpoken := true }
    let extras := mentioned.foldl
      (fun ex name => if ex.any (fun e => e.name = name) then ex else ex ++ [⟨name, 0⟩])
      s.data.extras
    ({ s with data := { s.data with extras := extras } }, spoke)

/-- P0 `tryCaptureBedroomsBathrooms`. -/
def tryCaptureBB (d : QuoteData) (speech : String) : QuoteData :=
  let t := lowNorm speech
  let d :=
    match findNumKey "bed" t.data with
    | some n => { d with bedrooms := ratOfNat n }
    | none => d
  match findNumKey "bath" t.data with
  | some n => { d with bathrooms := ratOfNat n }
  | none => d

/-! ### P0: the `/call/input` handler -/

/-- The shared body of `ask_extras_domestic_optional` /
`ask_extras_commercial_optional` (they differ only in the final prompt). -/
def p0AskExtras (s : P0State) (speech : String) (mentioned : List String)
    (pre : List String) (bottomPrompt : String) : P0Result :=
  if isNegative speech && mentioned.isEmpty then
    let d := { s.data with extras := s.data.extras.filter (fun e => decide (0 < e.quantity)) }
    p0Ret { s with data := d, confirmSummaryPending := true }
      (pre ++ [makeSummaryForCaller d, "Is that correct?"])
  else if ¬ mentioned.isEmpty then
    let spoke2 := if s.extrasImpactSpoken then ([] : List String) else [p0ImpactSentence]
    let s := { s with extrasImpactSpoken := true }
    match s.data.extras.find? (fun e => e.quantity = 0) with
    | some e =>
      p0Ret { s with pendingExtraName := e.name }
        (pre ++ spoke2 ++ ["How many would that be for " ++ e.name ++ "?"])
    | none => p0Ret s (pre ++ spoke2 ++ [bottomPrompt])
  else p0Ret s (pre ++ [bottomPrompt])

/-- Continuation after a bathroom count is stored: flat-fee services ask
for separate toilets, hourly domestic asks for the job type, anything else
moves to extras. -/
def p0AfterBathrooms (s : P0State) (pre : List String) : P0Result :=
  if flatFeeServices.contains s.data.domestic_service_type then
    p0Ret { s with stage := "need_domestic_toilets" }
      (pre ++ ["Any toilets separate from the bathrooms? If none, say zero."])
  else if s.data.domestic_service_type = "Regular Cleaning" then
    p0Ret { s with stage := "need_domestic_job_type" }
      (pre ++ ["Is this a one-off clean or ongoing?"])
  else
    p0Ret { s with stage := "ask_extras_domestic_optional" }
      (pre ++ ["Any extras you want to add, or no extras?"])

/-- The payload P0 posts to the pricing webhook (`safeNumber` and the
`|| ""` defaults are identities in this model). -/
def p0Payload (d : QuoteData) : QuoteData := { d with intent := "get_quote" }

/-- The `confirmSummaryPending` block of P0 `/call/input`: gate, minimum
hours, schema check, pricing webhook, currency check, and the spoken
outcome. -/
def p0Confirm (s : P0State) (speech : String) (pre : List String) (orc : P0Oracles) : P0Result :=
  if ¬ isAffirmative speech then
    p0Ret { s with confirmSummaryPending := false }
      (pre ++ ["No problem. What would you like to change?"])
  else
    let missing := quoteCriticalMissing s.data
    if missing ≠ "" then
      p0Ret { s with confirmSummaryPending := false }
        (pre ++ ["I still need your " ++ missing ++ "."])
    else
      let d := applyMinimumHoursP0 s.data
      let s := { s with data := d }
      let payload := p0Payload d
      if ¬ getQuoteSchemaCheck payload then
        p0Ret { s with confirmSummaryPending := false }
          (pre ++ ["Sorry, I’m missing a detail to price this. Can I quickly confirm the postcode and property type?"])
      else
        match orc.getQuote with
        | none =>
          { state := { s with confirmSummaryPending := false },
            rawSpoken := pre
              ++ ["Sorry, I couldn’t pull the price right now. Can I take your postcode again and I’ll try once more?"],
            invokedGetQuote := true, invokedBooking := false, hangup := false }
        | some r =>
          if containsDollar r.raw then
            { state := { s with confirmSummaryPending := false, stage := "need_booking_name" },
              rawSpoken := pre
                ++ ["Sorry, I’m only able to quote in pounds. I need to fix the pricing feed first. Can I take your name and number so we call you back with the correct price?"],
              invokedGetQuote := true, invokedBooking := false, hangup := false }
          else
            let speak1 :=
              if r.explanation ≠ "" then r.explanation
              else if r.total ≠ "" then
                "Alright. The total comes to £" ++ r.total
                  ++ " including any extras. Would you like to book it in?"
              else "Alright. I have the estimate. Would you like to book it in?"
            { state := { s with quoteResult := some r, stage := "post_quote_booking_decision",
                                confirmSummaryPending := false },
              rawSpoken := pre ++ [speak1, "Would you like to book that in?"],
              invokedGetQuote := true, invokedBooking := false, hangup := false }

/-- The stage dispatch of P0 `/call/input` (every branch of the source's
`if (st.stage === …)` chain, in source order; `"start"` is folded into
`need_category` exactly as the source's pre-assignment does). -/
def p0Stage (s : P0State) (speech : String) (mentioned : List String)
    (pre : List String) (orc : P0Oracles) : P0Result :=
  if s.stage = "post_quote_booking_decision" then
    if isAffirmative speech then
      p0Ret { s with stage := "need_booking_name" } (pre ++ ["Perfect. What’s your full name?"])
    else
      p0Ret { s with stage := "offer_followup" }
        (pre ++ ["No problem. Would you like me to send the estimate by text or email?"])
  else if s.stage = "offer_followup" then
    { state := s, rawSpoken := pre ++ ["Alright. Thanks for calling TotalSpark Solutions."],
      invokedGetQuote := false, invokedBooking := false, hangup := true }
  else if s.stage = "need_booking_name" then
    p0Ret { s with booking := { s.booking with full_name := speech },
                   stage := "need_booking_phone" }
      (pre ++ ["Thanks. What’s the best phone number for you?"])
  else if s.stage = "need_booking_phone" then
    p0Ret { s with booking := { s.booking with phone := speech }, stage := "need_booking_email" }
      (pre ++ ["And what email should I use?"])
  else if s.stage = "need_booking_email" then
    p0Ret { s with booking := { s.booking with email := speech }, stage := "need_booking_address" }
      (pre ++ ["What’s the address for the job? Postcode is fine if you prefer."])
  else if s.stage = "need_booking_address" then
    let bk := { s.booking with address := speech }
    let bk :=
      if bk.postcode = "" then
        let pc := extractPostcodeP0 speech
        if pc ≠ "" then { bk with postcode := pc } else bk
      else bk
    p0Ret { s with booking := bk, stage := "need_booking_date" }
      (pre ++ ["What date would you like?"])
  else if s.stage = "need_booking_date" then
    p0Ret { s with booking := { s.booking with preferred_date := speech },
                   stage := "need_booking_time" }
      (pre ++ ["And what time suits you?"])
  else if s.stage = "need_booking_time" then
    let bk := { s.booking with preferred_time := speech }
    let bk := if bk.postcode = "" then { bk with postcode := s.data.postcode } else bk
    let s := { s with booking := bk }
    if ¬ confirmBookingCheck bk then
      p0Ret { s with stage := "need_booking_name" }
        (pre ++ ["Sorry, I’m missing a detail to confirm the booking. Can you repeat your full name and phone number?"])
    else if orc.bookingOk then
      { state := s,
        rawSpoken := pre ++ ["Perfect, you’re booked in. We’ll be in touch if we need anything else."],
        invokedGetQuote := false, invokedBooking := true, hangup := true }
    else
      { state := { s with stage := "need_booking_date" },
        rawSpoken := pre
          ++ ["Sorry, I couldn’t confirm that booking right now. Can you tell me your preferred date and time again?"],
        invokedGetQuote := false, invokedBooking := true, hangup := false }
  else if s.stage = "start" ∨ s.stage = "need_category" then
    let cat := detectServiceCategoryFromSpeech speech
    if cat = "" then
      p0Ret { s with stage := "need_category" }
        (pre ++ ["Is the cleaning for a home or for a business premises?"])
    else
      let s := { s with data := { s.data with service_category := cat } }
      if cat = "domestic" then
        p0Ret { s with stage := "need_domestic_service_type" }
          (pre ++ ["What type of cleaning do you need?"])
      else
        p0Ret { s with stage := "need_commercial_service_type" }
          (pre ++ ["What type of commercial cleaning do you need?"])
  else if s.stage = "need_domestic_service_type" then
    let svc := serviceTypeFromSpeech "domestic" speech
    if svc = "" then
      p0Ret s (pre
        ++ ["What type of cleaning do you need? For example end of tenancy, deep clean, regular cleaning, post-construction, or disinfection."])
    else
      let d := { s.data with domestic_service_type := svc }
      let scope := detectPartialAreas speech
      let d :=
        if scope ≠ "" then { d with areas_scope := scope, domestic_service_type := "Deep Clean" }
        else d
      p0Ret { s with data := d, stage := "need_domestic_property_type" }
        (pre ++ ["What’s the property type? For example flat or house."])
  else if s.stage = "need_commercial_service_type" then
    let svc := serviceTypeFromSpeech "commercial" speech
    if svc = "" then
      p0Ret s (pre
        ++ ["What type of commercial cleaning do you need? Regular, deep clean, post-construction, or disinfection."])
    else
      p0Ret { s with data := { s.data with commercial_service_type := svc },
                     stage := "need_commercial_job_type" }
        (pre ++ ["Is this a one-time clean or an ongoing service?"])
  else if s.stage = "need_commercial_job_type" then
    let jt := jobTypeFromSpeech speech
    if jt = "" then
      p0Ret s (pre ++ ["Just to confirm, is this a one-time clean or an ongoing service?"])
    else
      p0Ret { s with data := { s.data with job_type := jt },
                     stage := "need_commercial_property_type" }
        (pre ++ ["What type of business premises is it? For example office, shop, warehouse, school, or clinic."])
  else if s.stage = "need_domestic_property_type" then
    let n := normalizeDomesticPropertyType speech
    if n.value = "" then
      p0Ret s (pre
        ++ ["Just to check, is that a flat or a house? If it’s a house, would it be terraced, semi-detached, or detached?"])
    else
      let s := { s with data := { s.data with domestic_property_type := n.value } }
      if n.needsConfirm then
        p0Ret { s with stage := "confirm_domestic_property_type" }
          (pre ++ ["Just to check, would that be " ++ n.value ++ "?"])
      else
        p0Ret { s with stage := "need_domestic_postcode" } (pre ++ ["What’s the postcode?"])
  else if s.stage = "confirm_domestic_property_type" then
    if ¬ isAffirmative speech then
      p0Ret { s with data := { s.data with domestic_property_type := "" },
                     stage := "need_domestic_property_type" }
        (pre ++ ["No worries. Is it a flat, terraced house, semi-detached, or detached?"])
    else
      p0Ret { s with stage := "need_domestic_postcode" } (pre ++ ["What’s the postcode?"])
  else if s.stage = "need_domestic_postcode" then
    let pc := extractPostcodeP0 speech
    if pc = "" then p0Ret s (pre ++ ["Sorry, can you repeat the postcode?"])
    else
      p0Ret { s with data := { s.data with postcode := pc }, stage := "need_domestic_bedrooms" }
        (pre ++ ["How many bedrooms is it?"])
  else if s.stage = "need_domestic_bedrooms" then
    match extractNumberP0 speech with
    | none =>
      let d := tryCaptureBB s.data speech
      if d.bedrooms = 0 then
        p0Ret { s with data := d } (pre ++ ["Sorry, how many bedrooms is it?"])
      else
        p0Ret { s with data := d, stage := "need_domestic_bathrooms" }
          (pre ++ ["How many bathrooms is it?"])
    | some n =>
      p0Ret { s with data := { s.data with bedrooms := ratOfInt (max 0 (Rat.floor n)) },
                     stage := "need_domestic_bathrooms" }
        (pre ++ ["How many bathrooms is it?"])
  else if s.stage = "need_domestic_bathrooms" then
    match extractNumberP0 speech with
    | none =>
      let d := tryCaptureBB s.data speech
      if d.bathrooms = 0 then
        p0Ret { s with data := d } (pre ++ ["Sorry, how many bathrooms is it?"])
      else p0AfterBathrooms { s with data := d } pre
    | some n =>
      p0AfterBathrooms
        { s with data := { s.data with bathrooms := ratOfInt (max 0 (Rat.floor n)) } } pre
  else if s.stage = "need_domestic_toilets" then
    match extractNumberP0 speech with
    | none =>
      if isNegative speech then
        p0Ret { s with data := { s.data with toilets := 0 },
                       stage := "ask_extras_domestic_optional" }
          (pre ++ ["Any extras you want to add, or no extras?"])
      else
        p0Ret s (pre ++ ["Sorry, how many separate toilets would that be? If none, say zero."])
    | some n =>
      p0Ret { s with data := { s.data with toilets := ratOfInt (max 0 (Rat.floor n)) },
                     stage := "ask_extras_domestic_optional" }
        (pre ++ ["Any extras you want to add, or no extras?"])
  else if s.stage = "need_domestic_job_type" then
    let jt := jobTypeFromSpeech speech
    if jt = "" then p0Ret s (pre ++ ["Just to confirm, is this a one-off clean or ongoing?"])
    else
      p0Ret { s with data := { s.data with job_type := jt }, stage := "need_domestic_hours" }
        (pre ++ ["How many hours per visit were you expecting?"])
  else if s.stage = "need_domestic_hours" then
    match extractNumberP0 speech with
    | none => p0Ret s (pre ++ ["Sorry, how many hours per visit were you expecting?"])
    | some n =>
      p0Ret { s with data := { s.data with preferred_hours := max 0 n },
                     stage := "need_domestic_frequency" }
        (pre ++ ["How many visits per week would that be?"])
  else if s.stage = "need_domestic_frequency" then
    match frequencyFromSpeech speech with
    | none => p0Ret s (pre ++ ["Just to confirm, how many visits per week would that be?"])
    | some f =>
      p0Ret { s with data := { s.data with visit_frequency_per_week := max 0 f },
                     stage := "ask_extras_domestic_optional" }
        (pre ++ ["Any extras you want to add, or no extras?"])
  else if s.stage = "ask_extras_domestic_optional" then
    p0AskExtras s speech mentioned pre
      "Which extra would you like to add? For example oven cleaning or carpet cleaning. If none, say no extras."
  else if s.stage = "need_commercial_property_type" then
    let n := normalizeCommercialPropertyType speech
    if n.value = "" then
      p0Ret s (pre
        ++ ["Sorry, what type of premises is it? For example office, shop, warehouse, school, or clinic."])
    else
      p0Ret { s with data := { s.data with commercial_property_type := n.value },
                     stage := "need_commercial_rooms_or_area" }
        (pre ++ ["Roughly how many rooms is it, or what size is the area?"])
  else if s.stage = "need_commercial_rooms_or_area" then
    let notes :=
      if s.data.notes = "" then "size: " ++ speech else s.data.notes ++ "; size: " ++ speech
    p0Ret { s with data := { s.data with notes := notes }, stage := "need_commercial_toilets" }
      (pre ++ ["How many toilets are there?"])
  else if s.stage = "need_commercial_toilets" then
    match extractNumberP0 speech with
    | none => p0Ret s (pre ++ ["Sorry, how many toilets are there?"])
    | some n =>
      p0Ret { s with data := { s.data with toilets := ratOfInt (max 0 (Rat.floor n)) },
                     stage := "need_commercial_kitchens" }
        (pre ++ ["Any kitchens on site? If yes, how many? If none, say zero."])
  else if s.stage = "need_commercial_kitchens" then
    match extractNumberP0 speech with
    | none =>
      if isNegative speech then
        p0Ret { s with data := { s.data with kitchens := 0 },
                       stage := "need_commercial_postcode" }
          (pre ++ ["What’s the postcode?"])
      else p0Ret s (pre ++ ["Sorry, how many kitchens would that be? If none, say zero."])
    | some n =>
      p0Ret { s with data := { s.data with kitchens := ratOfInt (max 0 (Rat.floor n)) },
                     stage := "need_commercial_postcode" }
        (pre ++ ["What’s the postcode?"])
  else if s.stage = "need_commercial_postcode" then
    let pc := extractPostcodeP0 speech
    if pc = "" then p0Ret s (pre ++ ["Sorry, can you repeat the postcode?"])
    else
      p0Ret { s with data := { s.data with postcode := pc }, stage := "need_commercial_hours" }
        (pre
          ++ ["How many hours were you expecting per visit? If you’re not sure, give me your best estimate."])
  else if s.stage = "need_commercial_hours" then
    match extractNumberP0 speech with
    | none =>
      p0Ret s (pre ++ ["No problem. Roughly how many hours do you think it will take per visit?"])
    | some n =>
      let s := { s with data := { s.data with preferred_hours := max 0 n } }
      if s.data.job_type = "regular" then
        p0Ret { s with stage := "need_commercial_frequency" }
          (pre ++ ["How many visits per week would that be?"])
      else
        p0Ret { s with stage := "ask_extras_commercial_optional" }
          (pre ++ ["Any extras you want to add, or no extras?"])
  else if s.stage = "need_commercial_frequency" then
    match frequencyFromSpeech speech with
    | none => p0Ret s (pre ++ ["Just to confirm, how many visits per week would that be?"])
    | some f =>
      p0Ret { s with data := { s.data with visit_frequency_per_week := max 0 f },
                     stage := "ask_extras_commercial_optional" }
        (pre ++ ["Any extras you want to add, or no extras?"])
  else if s.stage = "ask_extras_commercial_optional" then
    p0AskExtras s speech mentioned pre "Which extra would you like to add? If none, say no extras."
  else
    p0Ret s (pre ++ ["Sorry, I might have missed that. Is the cleaning for a home or for a business premises?"])

/-- P0 `/call/input` after the prelude: the pending-extra quantity block,
then the pending summary confirmation, then the stage dispatch. -/
def p0AfterAreas (s : P0State) (speech : String) (mentioned : List String)
    (pre : List String) (orc : P0Oracles) : P0Result :=
  if s.pendingExtraName ≠ "" then
    match extractNumberP0 speech with
    | none =>
      p0Ret s (pre ++ ["Sorry, how many would that be for " ++ s.pendingExtraName ++ "?"])
    | some qty =>
      let s2 := { s with
        data := { s.data with
          extras := upsertExtra s.data.extras s.pendingExtraName
            (ratOfInt (max 0 (Rat.floor qty))) },
        pendingExtraName := "" }
      if s2.confirmSummaryPending then p0Confirm s2 speech pre orc
      else p0Stage s2 speech mentioned pre orc
  else if s.confirmSummaryPending then p0Confirm s speech pre orc
  else p0Stage s speech mentioned pre orc

/-- P0 `POST /call/input`, one full turn: normalize the utterance, record
it, sanitise the extras array, refuse dollar-mention and non-cleaning
utterances, capture partial-area scope, register mentioned extras (with
the one-time impact disclosure), then hand over to `p0AfterAreas`. -/
def handleInputP0 (st0 : P0State) (speechRaw : String) (orc : P0Oracles) : P0Result :=
  let speech := normalizeSpaces speechRaw
  let st1 :=
    if speech ≠ "" then { st0 with transcript := st0.transcript ++ [speech] } else st0
  let st1 := { st1 with data := { st1.data with extras := ensureExtrasClean st1.data.extras } }
  if speech = "" then
    p0Ret st1 ["Sorry, I didn’t catch that. Is the cleaning for a home or for a business premises?"]
  else if containsDollar speech then
    p0Ret st1 ["Sorry, I only quote in pounds. Is the cleaning for a home or for a business premises?"]
  else
    let st2 := setAreasScopeIfAny st1 speech
    if requireClarifyBeforeRefusal speech then
      p0Ret st2 ["What kind of cleaning is this for, a home or a business?"]
    else
      let mentioned := detectExtrasMention speech
      let step := addMentioned st2 mentioned
      p0AfterAreas step.1 speech mentioned step.2 orc

/-! ### Claim C1: the AI merge -/

def c1CurrentQuote : QuoteData := { emptyQuote with postcode := "SW1A 1AA" }

def c1Proposal : QuoteData := { emptyQuote with domestic_service_type := "Deep Clean" }

def c1State : V1State :=
  { transcript := [], stage := "need_service_type", quote := c1CurrentQuote,
    postcode_attempts := 0 }

/-- The state after the bookkeeping prelude of a P0 turn (transcript push
and extras sanitisation). -/
def p0Prelude (s : P0State) (n : String) : P0State :=
  { s with transcript := s.transcript ++ [n],
           data := { s.data with extras := ensureExtrasClean s.data.extras } }

/-! ### Claim C4: category exclusivity -/

def c4Proposal : QuoteData :=
  { emptyQuote with
      domestic_service_type := "Deep Clean"
      commercial_service_type := "Regular Commercial Cleaning" }

/-! ### Claim C6: postcode retry-then-fallback -/

def c6DataP0 : QuoteData :=
  { p0EmptyData with
      service_category := "domestic"
      domestic_service_type := "Deep Clean"
      domestic_property_type := "Flat" }

def c6StateP0 : P0State :=
  { p0InitState with
      stage := "need_domestic_postcode"
      data := c6DataP0 }

/-- Running a sequence of further caller turns (deterministic, no AI
response) from a state. -/
def runTurnsV1 (s : V1State) : List String → V1State
  | [] => s
  | u :: us => runTurnsV1 (handleInputV1 s u none).state us

/-! ### Claim C5: the completeness gate -/

def c5Data : QuoteData :=
  { p0EmptyData with
      service_category := "domestic"
      domestic_service_type := "Deep Clean"
      domestic_property_type := "Flat"
      postcode := "NE1 1AA"
      bedrooms := 2
      bathrooms := 1 }

def c5State : P0State :=
  { p0InitState with
      stage := "ask_extras_domestic_optional"
      confirmSummaryPending := true
      data := c5Data }

def c5Resp : P0Resp := ⟨"total 120 GBP", "", "120"⟩

def c5MissingState : P0State :=
  { p0InitState with
      confirmSummaryPending := true
      data := { c5Data with postcode := "" } }

/-! ### Claim C8: dollar-denominated pricing responses -/

def c8RespV2 : RespV2 := ⟨"That comes to $45.", ""⟩

/-! ### Claim C4 (amended): exclusivity is an invariant of the
deterministic orchestrator

`InvP0` strengthens exclusivity with the stage/category linkage that
makes it inductive: the category is one of the three legal values, an
unset category means nothing is populated, each populated category keeps
the opposite pair empty, the (re)start stages carry a clean draft, and
the stages that write domestic (resp. commercial) pair fields are only
reachable with the matching category. -/
def InvP0 (s : P0State) : Prop :=
  (s.data.service_category = "" ∨ s.data.service_category = "domestic"
    ∨ s.data.service_category = "commercial")
  ∧ (s.data.service_category = "" → domPairEmpty s.data ∧ commPairEmpty s.data)
  ∧ (s.data.service_category = "domestic" → commPairEmpty s.data)
  ∧ (s.data.service_category = "commercial" → domPairEmpty s.data)
  ∧ ((s.stage = "start" ∨ s.stage = "need_category") →
      s.data.service_category = "" ∧ domPairEmpty s.data ∧ commPairEmpty s.data)
  ∧ ((s.stage = "need_domestic_service_type" ∨ s.stage = "need_domestic_property_type"
      ∨ s.stage = "confirm_domestic_property_type") → s.data.service_category = "domestic")
  ∧ ((s.stage = "need_commercial_service_type" ∨ s.stage = "need_commercial_job_type"
      ∨ s.stage = "need_commercial_property_type") → s.data.service_category = "commercial")

instance : DecidablePred InvP0 := fun s => by unfold InvP0; infer_instance

/-- Stages that play no role in `InvP0`. -/
def neutralStage (st : String) : Prop :=
  st ≠ "start" ∧ st ≠ "need_category"
  ∧ st ≠ "need_domestic_service_type" ∧ st ≠ "need_domestic_property_type"
  ∧ st ≠ "confirm_domestic_property_type"
  ∧ st ≠ "need_commercial_service_type" ∧ st ≠ "need_commercial_job_type"
  ∧ st ≠ "need_commercial_property_type"

instance (st : String) : Decidable (neutralStage st) := by
  unfold neutralStage
  infer_instance

/-! ### Theorems -/

theorem dropWhile_len_le (p : Char → Bool) (l : List Char) :
    (l.dropWhile p).length ≤ l.length := by
  induction l with
  | nil => simp [List.dropWhile]
  | cons c rest ih =>
    simp only [List.dropWhile]
    split
    · exact Nat.le_succ_of_le ih
    · exact Nat.le_refl _

/-! ### Currency-lock lemmas -/

theorem hasSeg_singleton (l : List Char) (c : Char) : hasSeg l [c] = l.contains c := by
  induction l with
  | nil => rfl
  | cons x rest ih =>
    simp only [hasSeg, segPref, List.contains_cons, ih, Bool.and_true]
    by_cases h : c = x
    · subst h; simp
    · have h2 : (c == x) = false := by simp [h]
      have h3 : decide (c = x) = false := by simp [h]
      simp [h2, h3]

theorem dollar_mem_of_lower {t : String} (h : '$' ∈ t.data) : '$' ∈ (lowerStr t).data := by
  unfold lowerStr
  refine List.mem_map.mpr ⟨'$', h, ?_⟩
  decide

theorem no_dollar_char {t : String} (h : containsDollar t = false) : '$' ∉ t.data := by
  intro hmem
  unfold containsDollar at h
  simp only [Bool.or_eq_false_iff] at h
  have h1 : strIncl (lowerStr t) "$" = false := h.1.1.1
  unfold strIncl at h1
  have : hasSeg (lowerStr t).data ['$'] = true := by
    rw [hasSeg_singleton]
    exact List.elem_eq_true_of_mem (dollar_mem_of_lower hmem)
  rw [show ("$" : String).data = ['$'] from rfl] at h1
  rw [this] at h1
  cases h1

theorem map_pound_id {l : List Char} (h : '$' ∉ l) :
    l.map (fun c => if c = '$' then '£' else c) = l := by
  induction l with
  | nil => rfl
  | cons c rest ih =>
    simp only [List.mem_cons, not_or] at h
    simp only [List.map_cons]
    rw [if_neg (fun hc => h.1 hc.symm), ih h.2]

theorem replaceDollarPound_id {t : String} (h : containsDollar t = false) :
    replaceDollarPound t = t := by
  obtain ⟨l⟩ := t
  unfold replaceDollarPound
  exact congrArg String.mk (map_pound_id (no_dollar_char h))

theorem safeSpeak_no_dollar (t : String) : containsDollar (safeSpeak t) = false := by
  unfold safeSpeak
  split
  · decide
  · next h => simpa using h

theorem ensureGbpSpeech_no_dollar (t : String) :
    containsDollar (ensureGbpSpeech t) = false := by
  unfold ensureGbpSpeech
  split
  · decide
  · next h => simpa using h

theorem enforceGbpOnlySpoken_no_dollar (t : String) :
    containsDollar (enforceGbpOnlySpoken t) = false := by
  unfold enforceGbpOnlySpoken
  split
  · decide
  · next h =>
    have hf : containsDollar t = false := by simpa using h
    rw [replaceDollarPound_id hf]
    exact hf

theorem safeSpeak_fix {t : String} (h : containsDollar t = true) : safeSpeak t = gbpFixV1 := by
  simp [safeSpeak, h]

theorem ensureGbpSpeech_fix {t : String} (h : containsDollar t = true) :
    ensureGbpSpeech t = gbpFixP0 := by
  simp [ensureGbpSpeech, h]

theorem enforceGbpOnlySpoken_fix {t : String} (h : containsDollar t = true) :
    enforceGbpOnlySpoken t = gbpFixV2 := by
  simp [enforceGbpOnlySpoken, h]

/-- Claim C2: every utterance the orchestrator speaks passes through the
dollar-detection filter at the output boundary, so over every session
state and input of each iteration's handler no spoken output contains a
dollar sign or dollar wording (`$`, `usd`, `dollar`, `bucks`), and any
text that does contain one is replaced by that iteration's fixed
pounds-only correction sentence. -/
theorem C2_currency_lock :
    (∀ s sp orc u, u ∈ p0SpokenOutputs (handleInputP0 s sp orc) → containsDollar u = false)
    ∧ (∀ s sp ai u, u ∈ v1SpokenOutputs (handleInputV1 s sp ai) → containsDollar u = false)
    ∧ (∀ d sp r u, u ∈ v2SpokenOutputs (handleConfirmQuoteV2 d sp r) → containsDollar u = false)
    ∧ (∀ t, containsDollar (safeSpeak t) = false ∧ containsDollar (ensureGbpSpeech t) = false
        ∧ containsDollar (enforceGbpOnlySpoken t) = false)
    ∧ (∀ t, containsDollar t = true →
        safeSpeak t = gbpFixV1 ∧ ensureGbpSpeech t = gbpFixP0
          ∧ enforceGbpOnlySpoken t = gbpFixV2) := by
  refine ⟨?_, ?_, ?_, ?_, ?_⟩
  · intro s sp orc u hu
    obtain ⟨x, _, rfl⟩ := List.mem_map.mp hu
    exact ensureGbpSpeech_no_dollar x
  · intro s sp ai u hu
    obtain ⟨x, _, rfl⟩ := List.mem_map.mp hu
    exact safeSpeak_no_dollar x
  · intro d sp r u hu
    obtain ⟨x, _, rfl⟩ := List.mem_map.mp hu
    exact enforceGbpOnlySpoken_no_dollar x
  · intro t
    exact ⟨safeSpeak_no_dollar t, ensureGbpSpeech_no_dollar t, enforceGbpOnlySpoken_no_dollar t⟩
  · intro t h
    exact ⟨safeSpeak_fix h, ensureGbpSpeech_fix h, enforceGbpOnlySpoken_fix h⟩

theorem C2_currency_lock_witness :
    containsDollar "Is the cleaning for a home or for a business premises?" = false
    ∧ safeSpeak "That will be $40." = gbpFixV1 := by
  refine ⟨?_, (C2_currency_lock.2.2.2.2 "That will be $40." (by decide)).1⟩
  exact C2_currency_lock.1 p0InitState "hello there" ⟨none, false⟩
    "Is the cleaning for a home or for a business premises?" (by decide)

/-! ### Claim C9: minimum-hours normalization -/

/-- Claim C9: minimum-hours normalization satisfies the spec floors in
both implementations (V2's `applyMinimumHours(category, jobType, h, f)`
and P0's `applyMinimumHours(data)`): at least 3 hours for a domestic
regular job and 5 for a one-off domestic hourly job, 5 for commercial
one-time, and for commercial regular 1 when the visit frequency is at
least 3 per week and 3 otherwise; hours already at or above the
applicable floor are left unchanged.  P0 guards its domestic floors on
the hourly service "Regular Cleaning", and its two-step bump leaves
negative hours alone, so drafts carry the (always program-established)
fact `0 ≤ preferred_hours`. -/
theorem C9_minimum_hours :
    (∀ h f : ℚ,
      (3 ≤ applyMinimumHoursV2 "domestic" "regular" h f
        ∧ (3 ≤ h → applyMinimumHoursV2 "domestic" "regular" h f = h))
      ∧ (5 ≤ applyMinimumHoursV2 "domestic" "one_time" h f
        ∧ (5 ≤ h → applyMinimumHoursV2 "domestic" "one_time" h f = h))
      ∧ (5 ≤ applyMinimumHoursV2 "commercial" "one_time" h f
        ∧ (5 ≤ h → applyMinimumHoursV2 "commercial" "one_time" h f = h))
      ∧ (3 ≤ f → 1 ≤ applyMinimumHoursV2 "commercial" "regular" h f
        ∧ (1 ≤ h → applyMinimumHoursV2 "commercial" "regular" h f = h))
      ∧ (f < 3 → 3 ≤ applyMinimumHoursV2 "commercial" "regular" h f
        ∧ (3 ≤ h → applyMinimumHoursV2 "commercial" "regular" h f = h)))
    ∧ (∀ d : QuoteData, 0 ≤ d.preferred_hours →
      (d.service_category = "domestic" → d.domestic_service_type = "Regular Cleaning" →
        (d.job_type = "regular" → 3 ≤ (applyMinimumHoursP0 d).preferred_hours
          ∧ (3 ≤ d.preferred_hours →
              (applyMinimumHoursP0 d).preferred_hours = d.preferred_hours))
        ∧ (d.job_type = "one_time" → 5 ≤ (applyMinimumHoursP0 d).preferred_hours
          ∧ (5 ≤ d.preferred_hours →
              (applyMinimumHoursP0 d).preferred_hours = d.preferred_hours)))
      ∧ (d.service_category = "commercial" →
        (d.job_type = "one_time" → 5 ≤ (applyMinimumHoursP0 d).preferred_hours
          ∧ (5 ≤ d.preferred_hours →
              (applyMinimumHoursP0 d).preferred_hours = d.preferred_hours))
        ∧ (d.job_type = "regular" → 3 ≤ d.visit_frequency_per_week →
            1 ≤ (applyMinimumHoursP0 d).preferred_hours
            ∧ (1 ≤ d.preferred_hours →
                (applyMinimumHoursP0 d).preferred_hours = d.preferred_hours))
        ∧ (d.job_type = "regular" → d.visit_frequency_per_week < 3 →
            3 ≤ (applyMinimumHoursP0 d).preferred_hours
            ∧ (3 ≤ d.preferred_hours →
                (applyMinimumHoursP0 d).preferred_hours = d.preferred_hours)))) := by
  constructor
  · intro h f
    have e1 : applyMinimumHoursV2 "domestic" "regular" h f = max h 3 := rfl
    have e2 : applyMinimumHoursV2 "domestic" "one_time" h f = max h 5 := rfl
    have e3 : applyMinimumHoursV2 "commercial" "one_time" h f = max h 5 := rfl
    have e4 : applyMinimumHoursV2 "commercial" "regular" h f
        = if 3 ≤ f then max h 1 else max h 3 := rfl
    rw [e1, e2, e3, e4]
    refine ⟨⟨le_max_right _ _, fun h3 => max_eq_left h3⟩,
      ⟨le_max_right _ _, fun h5 => max_eq_left h5⟩,
      ⟨le_max_right _ _, fun h5 => max_eq_left h5⟩, ?_, ?_⟩
    · intro hf
      rw [if_pos hf]
      exact ⟨le_max_right _ _, fun h1 => max_eq_left h1⟩
    · intro hf
      rw [if_neg (not_le.mpr hf)]
      exact ⟨le_max_right _ _, fun h3 => max_eq_left h3⟩
  · intro d hpos
    have bge : ∀ m : ℚ, 0 < m → m ≤ bumpFloor d.preferred_hours m := by
      intro m hm
      unfold bumpFloor
      by_cases hc : 0 < d.preferred_hours ∧ d.preferred_hours < m
      · rw [if_pos hc]
        split_ifs <;> exact le_refl m
      · rw [if_neg hc]
        split_ifs with h0
        · exact le_refl m
        · push_neg at hc
          rcases eq_or_lt_of_le hpos with he | hlt
          · exact absurd he.symm h0
          · exact hc hlt
    have bid : ∀ m : ℚ, 0 < m → m ≤ d.preferred_hours →
        bumpFloor d.preferred_hours m = d.preferred_hours := by
      intro m hm hge
      have hcf : ¬ (0 < d.preferred_hours ∧ d.preferred_hours < m) := by
        push_neg
        intro _
        linarith
      unfold bumpFloor
      rw [if_neg hcf]
      rw [if_neg (show ¬ d.preferred_hours = 0 by intro h0; rw [h0] at hge; linarith)]
    constructor
    · intro hc hsvc
      constructor
      · intro hjt
        have e : applyMinimumHoursP0 d
            = { d with preferred_hours := bumpFloor d.preferred_hours 3 } := by
          unfold applyMinimumHoursP0
          rw [if_pos hc, if_pos hsvc, if_neg (by rw [hjt]; decide), if_pos hjt]
        rw [e]
        exact ⟨bge 3 (by norm_num), fun h3 => bid 3 (by norm_num) h3⟩
      · intro hjt
        have e : applyMinimumHoursP0 d
            = { d with preferred_hours := bumpFloor d.preferred_hours 5 } := by
          unfold applyMinimumHoursP0
          rw [if_pos hc, if_pos hsvc, if_pos hjt]
        rw [e]
        exact ⟨bge 5 (by norm_num), fun h5 => bid 5 (by norm_num) h5⟩
    · intro hc
      have hcne : ¬ d.service_category = "domestic" := by rw [hc]; decide
      refine ⟨?_, ?_, ?_⟩
      · intro hjt
        have e : applyMinimumHoursP0 d
            = { d with preferred_hours := bumpFloor d.preferred_hours 5 } := by
          unfold applyMinimumHoursP0
          rw [if_neg hcne, if_pos hc, if_pos hjt]
        rw [e]
        exact ⟨bge 5 (by norm_num), fun h5 => bid 5 (by norm_num) h5⟩
      · intro hjt hf
        have e : applyMinimumHoursP0 d
            = { d with preferred_hours := bumpFloor d.preferred_hours 1 } := by
          unfold applyMinimumHoursP0
          rw [if_neg hcne, if_pos hc, if_neg (by rw [hjt]; decide), if_pos hjt, if_pos hf]
        rw [e]
        exact ⟨bge 1 (by norm_num), fun h1 => bid 1 (by norm_num) h1⟩
      · intro hjt hf
        have e : applyMinimumHoursP0 d
            = { d with preferred_hours := bumpFloor d.preferred_hours 3 } := by
          unfold applyMinimumHoursP0
          rw [if_neg hcne, if_pos hc, if_neg (by rw [hjt]; decide), if_pos hjt,
            if_neg (not_le.mpr hf)]
        rw [e]
        exact ⟨bge 3 (by norm_num), fun h3 => bid 3 (by norm_num) h3⟩

/-! ### Claim C3: the postcode decoder and phonetic spellings -/

/-- Claim C3 (code bug): the decoder handles NATO-alphabet and
letter-by-letter utterances (`"sierra whiskey one alpha one alpha alpha"`
→ `"SW1A 1AA"`), but an utterance that spells letters in the advertised
`"S for Sun"` phonetic form is not decoded at all: the scanner prepends
the captured letters, yet the `for`/example-word tokens are pushed into
the candidate as bare alphanumeric chunks, so validation always fails
(`none` instead of `"SW1A 1AA"`), contradicting the source's own
`supports "S for Sun"` comment, its speech hints and its retry prompt. -/
theorem C3_phonetic_decoding :
    extractUkPostcode "sierra whiskey one alpha one alpha alpha" = some "SW1A 1AA"
    ∧ extractUkPostcode "s for sun w for winter one alpha one alpha alpha" = none
    ∧ extractUkPostcode "S for Sun, W as in Winter, one A, one A A" = none := by
  exact ⟨by decide, by decide, by decide⟩

/-- Claim C1 counterexample: the V1 `/call/input` handler replaces the
whole draft with the AI proposal (`if (aiQuote) state.quote = aiQuote`),
so the populated `postcode` of the current draft is overwritten by the
proposal's empty one — the "current value wins for populated fields"
merge rule does not hold. -/
theorem C1_counterexample :
    c1State.quote.postcode = "SW1A 1AA"
    ∧ (handleInputV1 c1State "deep clean please" (some c1Proposal)).state.quote.postcode
        = "" := by
  exact ⟨rfl, by decide⟩

/-- Claim C1 (amended): on a turn whose stage handler does not itself
write the draft (`need_service_type`), the session draft after the turn
is exactly the AI proposal whenever extraction returned one — populated
fields included — and is the unchanged current draft only when extraction
failed. -/
theorem C1_amended (s : V1State) (sp : String) (p : QuoteData)
    (hne : (trimWs sp).data ≠ []) (hst : s.stage = "need_service_type") :
    (handleInputV1 s sp (some p)).state.quote = p
    ∧ (handleInputV1 s sp none).state.quote = s.quote := by
  constructor
  · unfold handleInputV1
    rw [if_neg hne]
    dsimp only
    rw [hst]
    rw [if_neg (by decide : ¬("need_service_type" : String) = "need_category")]
    rw [if_pos rfl]
    split_ifs <;> rfl
  · unfold handleInputV1
    rw [if_neg hne]
    dsimp only
    rw [hst]
    rw [if_neg (by decide : ¬("need_service_type" : String) = "need_category")]
    rw [if_pos rfl]
    split_ifs <;> rfl

theorem C1_amended_witness :
    (handleInputV1 c1State "deep clean please" (some c1Proposal)).state.quote = c1Proposal
    ∧ (handleInputV1 c1State "deep clean please" none).state.quote = c1State.quote := by
  exact C1_amended c1State "deep clean please" c1Proposal (by decide) rfl

/-! ### Claim C7: stages advance only on accepted values -/

/-- Claim C7 counterexample: `"hello there"` contains no category keyword
(`detectCategory` returns nothing), yet the V1 `need_category` handler
falls back to the draft's current `service_category`, which `emptyQuote()`
initialises to `"domestic"` — the stage advances to `need_service_type`
with a category the caller never stated. -/
theorem C7_counterexample :
    detectCategory "hello there" = none
    ∧ (handleInputV1 initStateV1 "hello there" none).state.stage = "need_service_type"
    ∧ (handleInputV1 initStateV1 "hello there" none).state.quote.service_category
        = "domestic" := by
  exact ⟨by decide, by decide, by decide⟩

theorem setAreas_stage (s : P0State) (sp : String) :
    (setAreasScopeIfAny s sp).stage = s.stage := by
  simp only [setAreasScopeIfAny]
  split_ifs <;> rfl

theorem setAreas_pending (s : P0State) (sp : String) :
    (setAreasScopeIfAny s sp).pendingExtraName = s.pendingExtraName := by
  simp only [setAreasScopeIfAny]
  split_ifs <;> rfl

theorem setAreas_confirm (s : P0State) (sp : String) :
    (setAreasScopeIfAny s sp).confirmSummaryPending = s.confirmSummaryPending := by
  simp only [setAreasScopeIfAny]
  split_ifs <;> rfl

theorem setAreas_category (s : P0State) (sp : String) :
    (setAreasScopeIfAny s sp).data.service_category = s.data.service_category := by
  simp only [setAreasScopeIfAny]
  split_ifs <;> rfl

theorem setAreas_id {s : P0State} {sp : String} (h : detectPartialAreas sp = "") :
    setAreasScopeIfAny s sp = s := by
  simp [setAreasScopeIfAny, h]

theorem addMentioned_nil (s : P0State) : addMentioned s [] = (s, []) := by
  simp [addMentioned]

theorem addMentioned_stage (s : P0State) (m : List String) :
    (addMentioned s m).1.stage = s.stage := by
  simp only [addMentioned]
  split_ifs <;> rfl

theorem addMentioned_pending (s : P0State) (m : List String) :
    (addMentioned s m).1.pendingExtraName = s.pendingExtraName := by
  simp only [addMentioned]
  split_ifs <;> rfl

theorem addMentioned_confirm (s : P0State) (m : List String) :
    (addMentioned s m).1.confirmSummaryPending = s.confirmSummaryPending := by
  simp only [addMentioned]
  split_ifs <;> rfl

theorem addMentioned_category (s : P0State) (m : List String) :
    (addMentioned s m).1.data.service_category = s.data.service_category := by
  simp only [addMentioned]
  split_ifs <;> rfl

/-- On a nonempty, dollar-free, non-out-of-scope utterance a P0 turn is
the prelude, the areas-scope capture, the extras-mention step and then
`p0AfterAreas`. -/
theorem handleInputP0_eq (s : P0State) (sp : String) (orc : P0Oracles)
    (h1 : normalizeSpaces sp ≠ "") (h2 : containsDollar (normalizeSpaces sp) = false)
    (h3 : requireClarifyBeforeRefusal (normalizeSpaces sp) = false) :
    handleInputP0 s sp orc =
      p0AfterAreas
        (addMentioned (setAreasScopeIfAny (p0Prelude s (normalizeSpaces sp))
          (normalizeSpaces sp)) (detectExtrasMention (normalizeSpaces sp))).1
        (normalizeSpaces sp) (detectExtrasMention (normalizeSpaces sp))
        (addMentioned (setAreasScopeIfAny (p0Prelude s (normalizeSpaces sp))
          (normalizeSpaces sp)) (detectExtrasMention (normalizeSpaces sp))).2 orc := by
  unfold handleInputP0 p0Prelude
  simp only []
  rw [if_pos h1, if_neg h1, h2]
  rw [if_neg (by decide : ¬false = true)]
  rw [h3]
  rw [if_neg (by decide : ¬false = true)]

/-- Claim C7 (amended): V1 stages can advance without any accepted
extraction — `need_category`, when no category keyword is detected, falls
back to the draft's current `service_category` (initialised `"domestic"`
by `emptyQuote()`), so a keyword-free utterance advances it with a
category the caller never stated; and `need_property_type` advances to
`need_postcode` unconditionally on any nonempty utterance, with no
extractor at all.  P0's `need_category` re-prompts without advancing and
leaves the category untouched. -/
theorem C7_amended :
    (∀ (s : V1State) (sp : String),
      (trimWs sp).data ≠ [] → s.stage = "need_category" →
      detectCategory (trimWs sp) = none → s.quote.service_category = "domestic" →
      (handleInputV1 s sp none).state.stage = "need_service_type"
      ∧ (handleInputV1 s sp none).state.quote.service_category = "domestic")
    ∧ (∀ (s : V1State) (sp : String),
      (trimWs sp).data ≠ [] → s.stage = "need_property_type" →
      (handleInputV1 s sp none).state.stage = "need_postcode"
      ∧ (handleInputV1 s sp none).state.quote = s.quote)
    ∧ (∀ (s : P0State) (sp : String) (orc : P0Oracles),
      normalizeSpaces sp ≠ "" → containsDollar (normalizeSpaces sp) = false →
      requireClarifyBeforeRefusal (normalizeSpaces sp) = false →
      detectServiceCategoryFromSpeech (normalizeSpaces sp) = "" →
      s.pendingExtraName = "" → s.confirmSummaryPending = false → s.stage = "need_category" →
      (handleInputP0 s sp orc).state.stage = "need_category"
      ∧ (handleInputP0 s sp orc).state.data.service_category = s.data.service_category) := by
  refine ⟨?_, ?_, ?_⟩
  · intro s sp hne hst hdet hsc
    unfold handleInputV1
    rw [if_neg hne]
    dsimp only
    rw [hst]
    rw [if_pos rfl]
    rw [hdet]
    dsimp only
    rw [hsc]
    rw [if_neg (by decide)]
    rw [if_pos rfl]
    exact ⟨rfl, rfl⟩
  · intro s sp hne hst
    unfold handleInputV1
    rw [if_neg hne]
    dsimp only
    rw [hst]
    rw [if_neg (by decide : ¬("need_property_type" : String) = "need_category")]
    rw [if_neg (by decide : ¬("need_property_type" : String) = "need_service_type")]
    rw [if_pos rfl]
    exact ⟨rfl, rfl⟩
  · intro s sp orc h1 h2 h3 h4 h5 h6 h7
    rw [handleInputP0_eq s sp orc h1 h2 h3]
    have hpend : (addMentioned (setAreasScopeIfAny (p0Prelude s (normalizeSpaces sp))
        (normalizeSpaces sp)) (detectExtrasMention (normalizeSpaces sp))).1.pendingExtraName
        = "" := by
      rw [addMentioned_pending, setAreas_pending]
      exact h5
    have hconf : (addMentioned (setAreasScopeIfAny (p0Prelude s (normalizeSpaces sp))
        (normalizeSpaces sp)) (detectExtrasMention (normalizeSpaces sp))).1.confirmSummaryPending
        = false := by
      rw [addMentioned_confirm, setAreas_confirm]
      exact h6
    have hstg : (addMentioned (setAreasScopeIfAny (p0Prelude s (normalizeSpaces sp))
        (normalizeSpaces sp)) (detectExtrasMention (normalizeSpaces sp))).1.stage
        = "need_category" := by
      rw [addMentioned_stage, setAreas_stage]
      exact h7
    have hcat : (addMentioned (setAreasScopeIfAny (p0Prelude s (normalizeSpaces sp))
        (normalizeSpaces sp)) (detectExtrasMention (normalizeSpaces sp))).1.data.service_category
        = s.data.service_category := by
      rw [addMentioned_category, setAreas_category]
      rfl
    unfold p0AfterAreas
    rw [hpend]
    rw [if_neg (by decide : ¬("" : String) ≠ "")]
    rw [hconf]
    rw [if_neg (by decide : ¬false = true)]
    unfold p0Stage
    rw [hstg]
    rw [if_neg (by decide), if_neg (by decide), if_neg (by decide), if_neg (by decide),
      if_neg (by decide), if_neg (by decide), if_neg (by decide), if_neg (by decide)]
    rw [if_pos (Or.inr rfl)]
    rw [h4]
    rw [if_pos rfl]
    exact ⟨rfl, hcat⟩

theorem C7_amended_witness :
    ((handleInputV1 initStateV1 "hello there" none).state.stage = "need_service_type"
      ∧ (handleInputV1 initStateV1 "hello there" none).state.quote.service_category
          = "domestic")
    ∧ ((handleInputV1 { initStateV1 with stage := "need_property_type" } "a nice big house"
          none).state.stage = "need_postcode"
      ∧ (handleInputV1 { initStateV1 with stage := "need_property_type" } "a nice big house"
          none).state.quote
          = ({ initStateV1 with stage := "need_property_type" } : V1State).quote)
    ∧ ((handleInputP0 p0InitState "hello there" ⟨none, false⟩).state.stage = "need_category"
      ∧ (handleInputP0 p0InitState "hello there" ⟨none, false⟩).state.data.service_category
          = p0InitState.data.service_category) := by
  refine ⟨?_, ?_, ?_⟩
  · exact C7_amended.1 initStateV1 "hello there" (by decide) rfl (by decide) rfl
  · exact C7_amended.2.1 { initStateV1 with stage := "need_property_type" }
      "a nice big house" (by decide) rfl
  · exact C7_amended.2.2 p0InitState "hello there" ⟨none, false⟩ (by decide) (by decide)
      (by decide) (by decide) rfl rfl rfl

/-- Claim C4 counterexample: a single V1 turn that applies an AI proposal
with both service types populated ends with both category pairs populated
in the session draft, because the proposal replaces the draft wholesale —
exclusivity is not preserved by turns that apply the AI proposal. -/
theorem C4_counterexample :
    exclusiveQ initStateV1.quote
    ∧ ¬ exclusiveQ (handleInputV1 initStateV1 "hello there" (some c4Proposal)).state.quote := by
  constructor
  · exact Or.inl (by decide)
  · decide

/-- Claim C6 counterexample: in the P0 iteration the domestic postcode
stage has no attempt counter: after two consecutive unparsable postcode
utterances the session is still at `need_domestic_postcode`, nothing was
appended to `notes`, and the postcode question is asked again (a third
ask, counting the question that opened the stage) — no fallback exists
there. -/
theorem C6_counterexample :
    (handleInputP0 c6StateP0 "no idea sorry the line is bad" ⟨none, false⟩).state.stage
        = "need_domestic_postcode"
    ∧ (handleInputP0 c6StateP0 "no idea sorry the line is bad" ⟨none, false⟩).rawSpoken
        = ["Sorry, can you repeat the postcode?"]
    ∧ (handleInputP0 (handleInputP0 c6StateP0 "no idea sorry the line is bad"
          ⟨none, false⟩).state "no idea sorry the line is bad" ⟨none, false⟩).state.stage
        = "need_domestic_postcode"
    ∧ (handleInputP0 (handleInputP0 c6StateP0 "no idea sorry the line is bad"
          ⟨none, false⟩).state "no idea sorry the line is bad" ⟨none, false⟩).rawSpoken
        = ["Sorry, can you repeat the postcode?"]
    ∧ (handleInputP0 (handleInputP0 c6StateP0 "no idea sorry the line is bad"
          ⟨none, false⟩).state "no idea sorry the line is bad" ⟨none, false⟩).state.data.notes
        = "" := by
  refine ⟨by decide, by decide, by decide, by decide, by decide⟩

theorem v1_postcode_fail_first (s : V1State) (u : String)
    (hne : (trimWs u).data ≠ []) (hst : s.stage = "need_postcode")
    (hp : extractUkPostcode (trimWs u) = none) (hat : s.postcode_attempts = 0) :
    (handleInputV1 s u none).state.stage = "need_postcode"
    ∧ (handleInputV1 s u none).state.postcode_attempts = 1
    ∧ (handleInputV1 s u none).rawSpoken = [v1PostcodeRetry]
    ∧ (handleInputV1 s u none).state.quote = s.quote := by
  unfold handleInputV1
  rw [if_neg hne]
  dsimp only
  rw [hst]
  rw [if_neg (by decide), if_neg (by decide), if_neg (by decide), if_pos rfl, hp]
  dsimp only
  rw [hat]
  rw [if_neg (by decide)]
  exact ⟨rfl, rfl, rfl, rfl⟩

theorem v1_postcode_fail_second (s : V1State) (u : String)
    (hne : (trimWs u).data ≠ []) (hst : s.stage = "need_postcode")
    (hp : extractUkPostcode (trimWs u) = none) (hat : s.postcode_attempts = 1) :
    (handleInputV1 s u none).state.stage = "postcode_fallback"
    ∧ (handleInputV1 s u none).state.quote.notes
        = s.quote.notes ++ " Postcode capture failed. Caller said: \"" ++ trimWs u ++ "\"."
    ∧ (handleInputV1 s u none).rawSpoken = [v1FallbackAsk]
    ∧ (handleInputV1 s u none).state.quote.postcode = s.quote.postcode := by
  unfold handleInputV1
  rw [if_neg hne]
  dsimp only
  rw [hst]
  rw [if_neg (by decide), if_neg (by decide), if_neg (by decide), if_pos rfl, hp]
  dsimp only
  rw [hat]
  rw [if_pos (by decide)]
  exact ⟨rfl, rfl, rfl, rfl⟩

theorem v1_fallback_turn (s : V1State) (u : String)
    (hne : (trimWs u).data ≠ []) (hst : s.stage = "postcode_fallback") :
    (handleInputV1 s u none).state.stage = "next_placeholder"
    ∧ (handleInputV1 s u none).state.quote.notes
        = s.quote.notes ++ " Fallback location: \"" ++ trimWs u ++ "\"."
    ∧ (handleInputV1 s u none).rawSpoken
        = ["Thanks. Next, how many bedrooms and bathrooms is it?"]
    ∧ (handleInputV1 s u none).state.quote.postcode = s.quote.postcode := by
  unfold handleInputV1
  rw [if_neg hne]
  dsimp only
  rw [hst]
  rw [if_neg (by decide), if_neg (by decide), if_neg (by decide), if_neg (by decide),
    if_pos rfl]
  exact ⟨rfl, rfl, rfl, rfl⟩

theorem v1_placeholder_absorb (s : V1State) (u : String) (ai : Option QuoteData)
    (hst : s.stage = "next_placeholder") :
    (handleInputV1 s u ai).state.stage = "next_placeholder"
    ∧ ∀ p ∈ (handleInputV1 s u ai).rawSpoken, p ≠ v1PostcodeAsk ∧ p ≠ v1PostcodeRetry := by
  unfold handleInputV1
  by_cases hne : (trimWs u).data = []
  · rw [if_pos hne]
    exact ⟨hst, by intro p hp; simp at hp; subst hp; exact ⟨by decide, by decide⟩⟩
  · rw [if_neg hne]
    cases ai with
    | none =>
      dsimp only
      rw [hst]
      rw [if_neg (by decide), if_neg (by decide), if_neg (by decide), if_neg (by decide),
        if_neg (by decide)]
      exact ⟨rfl, by intro p hp; simp at hp; subst hp; exact ⟨by decide, by decide⟩⟩
    | some q =>
      dsimp only
      rw [hst]
      rw [if_neg (by decide), if_neg (by decide), if_neg (by decide), if_neg (by decide),
        if_neg (by decide)]
      exact ⟨rfl, by intro p hp; simp at hp; subst hp; exact ⟨by decide, by decide⟩⟩

theorem runTurnsV1_placeholder (s : V1State) (hst : s.stage = "next_placeholder") :
    ∀ us, (runTurnsV1 s us).stage = "next_placeholder" := by
  intro us
  induction us generalizing s with
  | nil => exact hst
  | cons u us ih =>
    unfold runTurnsV1
    exact ih _ (v1_placeholder_absorb s u none hst).1

/-- Claim C6 (amended, for the `server.js` iteration that implements the
attempt counter): from a fresh `need_postcode` stage, two consecutive
unparsable utterances first retry with the phonetic hint and then enter
`postcode_fallback`; the failure text is appended to `notes`, the next
utterance is appended as the fallback location and the dialogue proceeds
to `next_placeholder` with the postcode still unset; from then on, over
any sequence of further turns, neither postcode question is ever spoken
again.  The P0 iteration instead re-asks the postcode question forever
(see the counterexample). -/
theorem C6_amended (s : V1State) (u1 u2 u3 : String) (future : List String)
    (h1 : (trimWs u1).data ≠ []) (h2 : (trimWs u2).data ≠ []) (h3 : (trimWs u3).data ≠ [])
    (hp1 : extractUkPostcode (trimWs u1) = none) (hp2 : extractUkPostcode (trimWs u2) = none)
    (hst : s.stage = "need_postcode") (hat : s.postcode_attempts = 0) :
    (handleInputV1 s u1 none).state.stage = "need_postcode"
    ∧ (handleInputV1 s u1 none).rawSpoken = [v1PostcodeRetry]
    ∧ (handleInputV1 (handleInputV1 s u1 none).state u2 none).state.stage
        = "postcode_fallback"
    ∧ (handleInputV1 (handleInputV1 s u1 none).state u2 none).state.quote.notes
        = s.quote.notes ++ " Postcode capture failed. Caller said: \"" ++ trimWs u2 ++ "\"."
    ∧ (handleInputV1 (handleInputV1 s u1 none).state u2 none).rawSpoken = [v1FallbackAsk]
    ∧ (handleInputV1 (handleInputV1 (handleInputV1 s u1 none).state u2 none).state u3
        none).state.stage = "next_placeholder"
    ∧ (handleInputV1 (handleInputV1 (handleInputV1 s u1 none).state u2 none).state u3
        none).state.quote.notes
        = s.quote.notes ++ " Postcode capture failed. Caller said: \"" ++ trimWs u2 ++ "\"."
          ++ " Fallback location: \"" ++ trimWs u3 ++ "\"."
    ∧ (handleInputV1 (handleInputV1 (handleInputV1 s u1 none).state u2 none).state u3
        none).state.quote.postcode = s.quote.postcode
    ∧ (∀ p ∈ (handleInputV1 (handleInputV1 s u1 none).state u2 none).rawSpoken
        ++ (handleInputV1 (handleInputV1 (handleInputV1 s u1 none).state u2 none).state u3
            none).rawSpoken,
        p ≠ v1PostcodeAsk ∧ p ≠ v1PostcodeRetry)
    ∧ (runTurnsV1 (handleInputV1 (handleInputV1 (handleInputV1 s u1 none).state u2
        none).state u3 none).state future).stage = "next_placeholder" := by
  obtain ⟨e1, e2, e3, e4⟩ := v1_postcode_fail_first s u1 h1 hst hp1 hat
  obtain ⟨f1, f2, f3, f4⟩ :=
    v1_postcode_fail_second (handleInputV1 s u1 none).state u2 h2 e1 hp2 e2
  obtain ⟨g1, g2, g3, g4⟩ :=
    v1_fallback_turn (handleInputV1 (handleInputV1 s u1 none).state u2 none).state u3 h3 f1
  refine ⟨e1, e3, f1, ?_, f3, g1, ?_, ?_, ?_, ?_⟩
  · rw [f2, e4]
  · rw [g2, f2, e4]
  · rw [g4, f4, e4]
  · intro p hp
    rw [f3, g3] at hp
    simp at hp
    rcases hp with hp | hp <;> subst hp
    · exact ⟨by decide, by decide⟩
    · exact ⟨by decide, by decide⟩
  · exact runTurnsV1_placeholder _ g1 future

theorem C6_amended_witness :
    (handleInputV1 { initStateV1 with stage := "need_postcode" } "mumble mumble" none).state.stage
      = "need_postcode"
    ∧ (runTurnsV1 (handleInputV1 (handleInputV1 (handleInputV1
        { initStateV1 with stage := "need_postcode" } "mumble mumble" none).state
        "mumble mumble" none).state "near the big supermarket in gateshead" none).state
        ["three bedrooms"]).stage = "next_placeholder" := by
  have h := C6_amended { initStateV1 with stage := "need_postcode" }
    "mumble mumble" "mumble mumble" "near the big supermarket in gateshead"
    ["three bedrooms"] (by decide) (by decide) (by decide) (by decide) (by decide) rfl rfl
  exact ⟨h.1, h.2.2.2.2.2.2.2.2.2⟩

/-- Claim C5 counterexample: at the pending summary confirmation the
caller says "yes oven please"; the turn queues "Oven cleaning" with the
unconfirmed quantity 0, the gate (`quoteCriticalMissing`) does not check
extras quantities (nor the commercial room/area description), so it
passes and the pricing webhook is invoked with a mentioned extra whose
quantity was never collected — the claim's "never invoked" fails. -/
theorem C5_counterexample :
    quoteCriticalMissing c5Data = ""
    ∧ (handleInputP0 c5State "yes oven please" ⟨some c5Resp, false⟩).invokedGetQuote = true
    ∧ (handleInputP0 c5State "yes oven please" ⟨some c5Resp, false⟩).state.data.extras
        = [⟨"Oven cleaning", 0⟩]
    ∧ (handleInputP0 c5State "yes oven please" ⟨some c5Resp, false⟩).state.stage
        = "post_quote_booking_decision" := by
  refine ⟨by decide, by decide, by decide, by decide⟩

/-- Claim C5 (amended): when the draft is missing one of the items the
gate does check (category, category-appropriate service and property
type, postcode, job type, hours where hourly, frequency where regular —
but not extras quantities or the commercial room/area description), a
summary-confirmation turn never invokes the pricing webhook and
re-prompts for exactly the first missing item in the gate's fixed order. -/
theorem C5_amended (s : P0State) (sp : String) (orc : P0Oracles)
    (h1 : normalizeSpaces sp ≠ "") (h2 : containsDollar (normalizeSpaces sp) = false)
    (h3 : requireClarifyBeforeRefusal (normalizeSpaces sp) = false)
    (h4 : detectPartialAreas (normalizeSpaces sp) = "")
    (h5 : detectExtrasMention (normalizeSpaces sp) = [])
    (h6 : s.pendingExtraName = "")
    (h7 : s.confirmSummaryPending = true)
    (h8 : isAffirmative (normalizeSpaces sp) = true)
    (h9 : quoteCriticalMissing s.data ≠ "") :
    (handleInputP0 s sp orc).invokedGetQuote = false
    ∧ (handleInputP0 s sp orc).rawSpoken
        = ["I still need your " ++ quoteCriticalMissing s.data ++ "."]
    ∧ (handleInputP0 s sp orc).state.stage = s.stage
    ∧ (handleInputP0 s sp orc).invokedBooking = false := by
  rw [handleInputP0_eq s sp orc h1 h2 h3]
  rw [setAreas_id h4, h5, addMentioned_nil]
  unfold p0AfterAreas
  have hpend : (p0Prelude s (normalizeSpaces sp)).pendingExtraName = "" := h6
  rw [hpend]
  rw [if_neg (by decide : ¬("" : String) ≠ "")]
  have hconf : (p0Prelude s (normalizeSpaces sp)).confirmSummaryPending = true := h7
  rw [hconf]
  rw [if_pos rfl]
  unfold p0Confirm
  rw [h8]
  rw [if_neg (by decide : ¬¬true = true)]
  have hq : quoteCriticalMissing (p0Prelude s (normalizeSpaces sp)).data
      = quoteCriticalMissing s.data := rfl
  rw [hq]
  rw [if_pos h9]
  exact ⟨rfl, rfl, rfl, rfl⟩

theorem C5_amended_witness :
    (handleInputP0 c5MissingState "yes" ⟨some c5Resp, false⟩).invokedGetQuote = false
    ∧ (handleInputP0 c5MissingState "yes" ⟨some c5Resp, false⟩).rawSpoken
        = ["I still need your " ++ quoteCriticalMissing c5MissingState.data ++ "."]
    ∧ (handleInputP0 c5MissingState "yes" ⟨some c5Resp, false⟩).state.stage
        = c5MissingState.stage
    ∧ (handleInputP0 c5MissingState "yes" ⟨some c5Resp, false⟩).invokedBooking = false := by
  exact C5_amended c5MissingState "yes" ⟨some c5Resp, false⟩ (by decide) (by decide)
    (by decide) (by decide) (by decide) rfl rfl (by decide) (by decide)

/-- Claim C8 counterexample: in the V2 `confirm_details_before_quote`
handler a pricing response containing `$45` is filtered out of the spoken
text (the fixed correction sentence is spoken instead), but the session
still transitions to `offer_booking` — the normal accept-price path — not
to the manual callback-collection path. -/
theorem C8_counterexample :
    (handleConfirmQuoteV2 c5Data "yes" (some c8RespV2)).stage = "offer_booking"
    ∧ (handleConfirmQuoteV2 c5Data "yes" (some c8RespV2)).rawSpoken = [gbpFixV2]
    ∧ containsDollar c8RespV2.explanation = true := by
  refine ⟨by decide, by decide, by decide⟩

/-- Claim C8 (amended): no figure of a dollar-denominated pricing response
is ever spoken; the P0 iteration reacts by moving to callback collection
(`need_booking_name`, speaking only the fixed pricing-feed apology) while
the V2 iteration proceeds to `offer_booking`, speaking only the fixed
pounds-only correction sentence. -/
theorem C8_amended :
    (∀ (s : P0State) (sp : String) (orc : P0Oracles) (r : P0Resp),
      normalizeSpaces sp ≠ "" → containsDollar (normalizeSpaces sp) = false →
      requireClarifyBeforeRefusal (normalizeSpaces sp) = false →
      detectPartialAreas (normalizeSpaces sp) = "" →
      detectExtrasMention (normalizeSpaces sp) = [] →
      s.pendingExtraName = "" → s.confirmSummaryPending = true →
      isAffirmative (normalizeSpaces sp) = true →
      quoteCriticalMissing s.data = "" →
      getQuoteSchemaCheck
        (p0Payload (applyMinimumHoursP0 (p0Prelude s (normalizeSpaces sp)).data)) = true →
      orc.getQuote = some r → containsDollar r.raw = true →
      (handleInputP0 s sp orc).state.stage = "need_booking_name"
      ∧ (handleInputP0 s sp orc).rawSpoken
          = ["Sorry, I’m only able to quote in pounds. I need to fix the pricing feed first. Can I take your name and number so we call you back with the correct price?"]
      ∧ (handleInputP0 s sp orc).invokedGetQuote = true)
    ∧ (∀ (d : QuoteData) (sp : String) (r : RespV2),
      parseYesNoV2 sp ≠ "no" →
      containsDollar ((if r.explanation ≠ "" then r.explanation
        else v2QuoteFallbackText r.total) ++ " Want me to get that booked in?") = true →
      (handleConfirmQuoteV2 d sp (some r)).stage = "offer_booking"
      ∧ (handleConfirmQuoteV2 d sp (some r)).rawSpoken = [gbpFixV2]) := by
  constructor
  · intro s sp orc r h1 h2 h3 h4 h5 h6 h7 h8 h9 h10 h11 h12
    rw [handleInputP0_eq s sp orc h1 h2 h3]
    rw [setAreas_id h4, h5, addMentioned_nil]
    unfold p0AfterAreas
    have hpend : (p0Prelude s (normalizeSpaces sp)).pendingExtraName = "" := h6
    rw [hpend]
    rw [if_neg (by decide : ¬("" : String) ≠ "")]
    have hconf : (p0Prelude s (normalizeSpaces sp)).confirmSummaryPending = true := h7
    rw [hconf]
    rw [if_pos rfl]
    unfold p0Confirm
    rw [h8]
    rw [if_neg (by decide : ¬¬true = true)]
    have hq : quoteCriticalMissing (p0Prelude s (normalizeSpaces sp)).data
        = quoteCriticalMissing s.data := rfl
    rw [hq, h9]
    rw [if_neg (by decide : ¬("" : String) ≠ "")]
    dsimp only
    rw [h10]
    rw [if_neg (by decide : ¬¬true = true)]
    rw [h11]
    dsimp only
    rw [h12]
    rw [if_pos rfl]
    exact ⟨rfl, rfl, rfl⟩
  · intro d sp r hyn hdollar
    unfold handleConfirmQuoteV2
    rw [if_neg hyn]
    simp only []
    rw [enforceGbpOnlySpoken_fix hdollar]
    constructor
    · trivial
    · rfl

theorem C8_amended_witness :
    ((handleInputP0 c5State "yes" ⟨some ⟨"The price is $45", "", ""⟩, false⟩).state.stage
        = "need_booking_name"
      ∧ (handleInputP0 c5State "yes"
          ⟨some ⟨"The price is $45", "", ""⟩, false⟩).invokedGetQuote = true)
    ∧ (handleConfirmQuoteV2 c5Data "yes" (some c8RespV2)).rawSpoken = [gbpFixV2] := by
  constructor
  · have h := C8_amended.1 c5State "yes" ⟨some ⟨"The price is $45", "", ""⟩, false⟩
      ⟨"The price is $45", "", ""⟩ (by decide) (by decide) (by decide) (by decide)
      (by decide) rfl rfl (by decide) (by decide) (by decide) rfl (by decide)
    exact ⟨h.1, h.2.2⟩
  · exact (C8_amended.2 c5Data "yes" c8RespV2 (by decide) (by decide)).2

/-- Transport of the invariant along a state change that keeps the five
linked fields and either keeps the stage or moves to a neutral one. -/
theorem invP0_update (s : P0State) (hInv : InvP0 s) (s2 : P0State)
    (hcat : s2.data.service_category = s.data.service_category)
    (hds : s2.data.domestic_service_type = s.data.domestic_service_type)
    (hdp : s2.data.domestic_property_type = s.data.domestic_property_type)
    (hcs : s2.data.commercial_service_type = s.data.commercial_service_type)
    (hcp : s2.data.commercial_property_type = s.data.commercial_property_type)
    (hstage : s2.stage = s.stage ∨ neutralStage s2.stage) : InvP0 s2 := by
  obtain ⟨i1, i2, i3, i4, i5, i6, i7⟩ := hInv
  unfold InvP0 domPairEmpty commPairEmpty at *
  rw [hcat, hds, hdp, hcs, hcp]
  rcases hstage with h | h
  · rw [h]
    exact ⟨i1, i2, i3, i4, i5, i6, i7⟩
  · obtain ⟨n1, n2, n3, n4, n5, n6, n7, n8⟩ := h
    refine ⟨i1, i2, i3, i4, ?_, ?_, ?_⟩
    · rintro (hs | hs)
      · exact absurd hs n1
      · exact absurd hs n2
    · rintro (hs | hs | hs)
      · exact absurd hs n3
      · exact absurd hs n4
      · exact absurd hs n5
    · rintro (hs | hs | hs)
      · exact absurd hs n6
      · exact absurd hs n7
      · exact absurd hs n8

/-- Setting the category to `"domestic"` from a clean (re)start state. -/
theorem invP0_catDom (s : P0State) (hInv : InvP0 s)
    (hpre : s.stage = "start" ∨ s.stage = "need_category") (c : String)
    (hc : c = "domestic") :
    InvP0 { s with data := { s.data with service_category := c },
                   stage := "need_domestic_service_type" } := by
  obtain ⟨i1, i2, i3, i4, i5, i6, i7⟩ := hInv
  obtain ⟨hc0, hdp0, hcp0⟩ := i5 hpre
  subst hc
  unfold InvP0 domPairEmpty commPairEmpty at *
  refine ⟨?_, ?_, ?_, ?_, ?_, ?_, ?_⟩
  · exact Or.inr (Or.inl rfl)
  · intro h
    simp at h
  · intro _
    exact hcp0
  · intro h
    simp at h
  · rintro (hs | hs) <;> simp at hs
  · intro _
    rfl
  · rintro (hs | hs | hs) <;> simp at hs

/-- Setting the category to `"commercial"` from a clean (re)start state. -/
theorem invP0_catComm (s : P0State) (hInv : InvP0 s)
    (hpre : s.stage = "start" ∨ s.stage = "need_category") (c : String)
    (hc : c = "commercial") :
    InvP0 { s with data := { s.data with service_category := c },
                   stage := "need_commercial_service_type" } := by
  obtain ⟨i1, i2, i3, i4, i5, i6, i7⟩ := hInv
  obtain ⟨hc0, hdp0, hcp0⟩ := i5 hpre
  subst hc
  unfold InvP0 domPairEmpty commPairEmpty at *
  refine ⟨?_, ?_, ?_, ?_, ?_, ?_, ?_⟩
  · exact Or.inr (Or.inr rfl)
  · intro h
    simp at h
  · intro h
    simp at h
  · intro _
    exact hdp0
  · rintro (hs | hs) <;> simp at hs
  · rintro (hs | hs | hs) <;> simp at hs
  · intro _
    rfl

/-- Re-asking the category question (from `start` or `need_category`). -/
theorem invP0_recat (s : P0State) (hInv : InvP0 s)
    (hpre : s.stage = "start" ∨ s.stage = "need_category") :
    InvP0 { s with stage := "need_category" } := by
  obtain ⟨i1, i2, i3, i4, i5, i6, i7⟩ := hInv
  unfold InvP0 domPairEmpty commPairEmpty at *
  refine ⟨i1, i2, i3, i4, fun _ => i5 hpre, ?_, ?_⟩
  · rintro (hs | hs | hs) <;> simp at hs
  · rintro (hs | hs | hs) <;> simp at hs

/-- Updating domestic-side fields while the category is `"domestic"`:
the stage may stay, move to a domestic-linked stage, or move to a neutral
one. -/
theorem invP0_domSet (s : P0State) (hInv : InvP0 s)
    (hc : s.data.service_category = "domestic") (s2 : P0State)
    (hcat : s2.data.service_category = s.data.service_category)
    (hcs : s2.data.commercial_service_type = s.data.commercial_service_type)
    (hcp : s2.data.commercial_property_type = s.data.commercial_property_type)
    (hstage : s2.stage = s.stage
      ∨ (s2.stage = "need_domestic_service_type"
        ∨ s2.stage = "need_domestic_property_type"
        ∨ s2.stage = "confirm_domestic_property_type")
      ∨ neutralStage s2.stage) :
    InvP0 s2 := by
  obtain ⟨i1, i2, i3, i4, i5, i6, i7⟩ := hInv
  unfold InvP0 domPairEmpty commPairEmpty at *
  rw [hcat, hcs, hcp, hc]
  refine ⟨Or.inr (Or.inl rfl), ?_, fun _ => i3 hc, ?_, ?_, fun _ => rfl, ?_⟩
  · intro h
    simp at h
  · intro h
    simp at h
  · rcases hstage with h | h | h
    · intro hs
      rw [h] at hs
      have h5 := (i5 hs).1
      rw [hc] at h5
      simp at h5
    · rintro (hs | hs) <;> rcases h with h | h | h <;> rw [hs] at h <;> simp at h
    · rintro (hs | hs)
      · exact absurd hs h.1
      · exact absurd hs h.2.1
  · rcases hstage with h | h | h
    · intro hs
      rw [h] at hs
      have h7 := i7 hs
      rw [hc] at h7
      simp at h7
    · rintro (hs | hs | hs) <;> rcases h with h | h | h <;> rw [hs] at h <;> simp at h
    · rintro (hs | hs | hs)
      · exact absurd hs h.2.2.2.2.2.1
      · exact absurd hs h.2.2.2.2.2.2.1
      · exact absurd hs h.2.2.2.2.2.2.2

/-- Updating commercial-side fields while the category is `"commercial"`:
the stage may stay, move to a commercial-linked stage, or move to a
neutral one. -/
theorem invP0_commSet (s : P0State) (hInv : InvP0 s)
    (hc : s.data.service_category = "commercial") (s2 : P0State)
    (hcat : s2.data.service_category = s.data.service_category)
    (hds : s2.data.domestic_service_type = s.data.domestic_service_type)
    (hdp : s2.data.domestic_property_type = s.data.domestic_property_type)
    (hstage : s2.stage = s.stage
      ∨ (s2.stage = "need_commercial_service_type"
        ∨ s2.stage = "need_commercial_job_type"
        ∨ s2.stage = "need_commercial_property_type")
      ∨ neutralStage s2.stage) :
    InvP0 s2 := by
  obtain ⟨i1, i2, i3, i4, i5, i6, i7⟩ := hInv
  unfold InvP0 domPairEmpty commPairEmpty at *
  rw [hcat, hds, hdp, hc]
  refine ⟨Or.inr (Or.inr rfl), ?_, ?_, fun _ => i4 hc, ?_, ?_, fun _ => rfl⟩
  · intro h
    simp at h
  · intro h
    simp at h
  · rcases hstage with h | h | h
    · intro hs
      rw [h] at hs
      have h5 := (i5 hs).1
      rw [hc] at h5
      simp at h5
    · rintro (hs | hs) <;> rcases h with h | h | h <;> rw [hs] at h <;> simp at h
    · rintro (hs | hs)
      · exact absurd hs h.1
      · exact absurd hs h.2.1
  · rcases hstage with h | h | h
    · intro hs
      rw [h] at hs
      have h6 := i6 hs
      rw [hc] at h6
      simp at h6
    · rintro (hs | hs | hs) <;> rcases h with h | h | h <;> rw [hs] at h <;> simp at h
    · rintro (hs | hs | hs)
      · exact absurd hs h.2.2.1
      · exact absurd hs h.2.2.2.1
      · exact absurd hs h.2.2.2.2.1

theorem amhP0_core (d : QuoteData) :
    (applyMinimumHoursP0 d).service_category = d.service_category
    ∧ (applyMinimumHoursP0 d).domestic_service_type = d.domestic_service_type
    ∧ (applyMinimumHoursP0 d).domestic_property_type = d.domestic_property_type
    ∧ (applyMinimumHoursP0 d).commercial_service_type = d.commercial_service_type
    ∧ (applyMinimumHoursP0 d).commercial_property_type = d.commercial_property_type := by
  unfold applyMinimumHoursP0
  split_ifs <;> exact ⟨rfl, rfl, rfl, rfl, rfl⟩

theorem tryCaptureBB_core (d : QuoteData) (sp : String) :
    (tryCaptureBB d sp).service_category = d.service_category
    ∧ (tryCaptureBB d sp).domestic_service_type = d.domestic_service_type
    ∧ (tryCaptureBB d sp).domestic_property_type = d.domestic_property_type
    ∧ (tryCaptureBB d sp).commercial_service_type = d.commercial_service_type
    ∧ (tryCaptureBB d sp).commercial_property_type = d.commercial_property_type := by
  unfold tryCaptureBB
  simp only []
  cases findNumKey "bed" (lowNorm sp).data <;> cases findNumKey "bath" (lowNorm sp).data <;>
    exact ⟨rfl, rfl, rfl, rfl, rfl⟩

theorem inv_setAreas (s : P0State) (sp : String) (hInv : InvP0 s) :
    InvP0 (setAreasScopeIfAny s sp) := by
  unfold setAreasScopeIfAny
  by_cases h1 : s.data.areas_scope = ""
  · rw [if_pos h1]
    simp only []
    by_cases h2 : detectPartialAreas sp ≠ ""
    · rw [if_pos h2]
      split_ifs with h3
      · have hc : s.data.service_category = "domestic" := h3
        exact invP0_domSet s hInv hc _ rfl rfl rfl (Or.inl rfl)
      · exact invP0_update s hInv _ rfl rfl rfl rfl rfl (Or.inl rfl)
    · rw [if_neg h2]
      exact hInv
  · rw [if_neg h1]
    exact hInv

theorem inv_addMentioned (s : P0State) (m : List String) (hInv : InvP0 s) :
    InvP0 (addMentioned s m).1 := by
  unfold addMentioned
  by_cases h : m = []
  · rw [if_pos h]
    exact hInv
  · rw [if_neg h]
    simp only []
    exact invP0_update s hInv _ rfl rfl rfl rfl rfl (Or.inl rfl)

theorem inv_askExtras (s : P0State) (sp : String) (m : List String) (pre : List String)
    (bp : String) (hInv : InvP0 s) : InvP0 (p0AskExtras s sp m pre bp).state := by
  unfold p0AskExtras
  by_cases h1 : (isNegative sp && m.isEmpty) = true
  · rw [if_pos h1]
    exact invP0_update s hInv _ rfl rfl rfl rfl rfl (Or.inl rfl)
  · rw [if_neg h1]
    by_cases h2 : m.isEmpty = true
    · rw [if_neg (not_not_intro h2)]
      exact hInv
    · rw [if_pos h2]
      simp only []
      cases ({ s with extrasImpactSpoken := true } : P0State).data.extras.find?
          (fun e => e.quantity = 0) <;>
        exact invP0_update s hInv _ rfl rfl rfl rfl rfl (Or.inl rfl)

theorem inv_afterBath (s : P0State) (pre : List String) (hInv : InvP0 s) :
    InvP0 (p0AfterBathrooms s pre).state := by
  unfold p0AfterBathrooms
  split_ifs <;>
    exact invP0_update s hInv _ rfl rfl rfl rfl rfl (Or.inr (of_decide_eq_true rfl))

theorem inv_confirm (s : P0State) (sp : String) (pre : List String) (orc : P0Oracles)
    (hInv : InvP0 s) : InvP0 (p0Confirm s sp pre orc).state := by
  unfold p0Confirm
  by_cases ha : isAffirmative sp = true
  · rw [if_neg (not_not_intro ha)]
    simp only []
    by_cases h2 : quoteCriticalMissing s.data ≠ ""
    · rw [if_pos h2]
      exact invP0_update s hInv _ rfl rfl rfl rfl rfl (Or.inl rfl)
    · rw [if_neg h2]
      have hc := amhP0_core s.data
      by_cases h3 : getQuoteSchemaCheck (p0Payload (applyMinimumHoursP0 s.data)) = true
      · rw [if_neg (not_not_intro h3)]
        cases orc.getQuote with
        | none =>
          exact invP0_update s hInv _ hc.1 hc.2.1 hc.2.2.1 hc.2.2.2.1 hc.2.2.2.2 (Or.inl rfl)
        | some r =>
          try simp only []
          by_cases h4 : containsDollar r.raw = true
          · rw [if_pos h4]
            exact invP0_update s hInv _ hc.1 hc.2.1 hc.2.2.1 hc.2.2.2.1 hc.2.2.2.2
              (Or.inr (of_decide_eq_true rfl))
          · rw [if_neg h4]
            try simp only []
            exact invP0_update s hInv _ hc.1 hc.2.1 hc.2.2.1 hc.2.2.2.1 hc.2.2.2.2
              (Or.inr (of_decide_eq_true rfl))
      · rw [if_pos h3]
        exact invP0_update s hInv _ hc.1 hc.2.1 hc.2.2.1 hc.2.2.2.1 hc.2.2.2.2 (Or.inl rfl)
  · rw [if_pos ha]
    exact invP0_update s hInv _ rfl rfl rfl rfl rfl (Or.inl rfl)

theorem detectCat_cases (sp : String) :
    detectServiceCategoryFromSpeech sp = ""
    ∨ detectServiceCategoryFromSpeech sp = "domestic"
    ∨ detectServiceCategoryFromSpeech sp = "commercial" := by
  unfold detectServiceCategoryFromSpeech
  try simp only []
  split_ifs <;> simp

theorem inv_stage (s : P0State) (sp : String) (m : List String) (pre : List String)
    (orc : P0Oracles) (hInv : InvP0 s) : InvP0 (p0Stage s sp m pre orc).state := by
  unfold p0Stage
  by_cases h1 : s.stage = "post_quote_booking_decision"
  · rw [if_pos h1]
    split_ifs <;>
      exact invP0_update s hInv _ rfl rfl rfl rfl rfl (Or.inr (of_decide_eq_true rfl))
  rw [if_neg h1]
  by_cases h2 : s.stage = "offer_followup"
  · rw [if_pos h2]
    exact hInv
  rw [if_neg h2]
  by_cases h3 : s.stage = "need_booking_name"
  · rw [if_pos h3]
    exact invP0_update s hInv _ rfl rfl rfl rfl rfl (Or.inr (of_decide_eq_true rfl))
  rw [if_neg h3]
  by_cases h4 : s.stage = "need_booking_phone"
  · rw [if_pos h4]
    exact invP0_update s hInv _ rfl rfl rfl rfl rfl (Or.inr (of_decide_eq_true rfl))
  rw [if_neg h4]
  by_cases h5 : s.stage = "need_booking_email"
  · rw [if_pos h5]
    exact invP0_update s hInv _ rfl rfl rfl rfl rfl (Or.inr (of_decide_eq_true rfl))
  rw [if_neg h5]
  by_cases h6 : s.stage = "need_booking_address"
  · rw [if_pos h6]
    exact invP0_update s hInv _ rfl rfl rfl rfl rfl (Or.inr (of_decide_eq_true rfl))
  rw [if_neg h6]
  by_cases h7 : s.stage = "need_booking_date"
  · rw [if_pos h7]
    exact invP0_update s hInv _ rfl rfl rfl rfl rfl (Or.inr (of_decide_eq_true rfl))
  rw [if_neg h7]
  by_cases h8 : s.stage = "need_booking_time"
  · rw [if_pos h8]
    try simp only []
    split_ifs <;> first
      | exact invP0_update s hInv _ rfl rfl rfl rfl rfl (Or.inl rfl)
      | exact invP0_update s hInv _ rfl rfl rfl rfl rfl (Or.inr (of_decide_eq_true rfl))
  rw [if_neg h8]
  by_cases h9 : s.stage = "start" ∨ s.stage = "need_category"
  · rw [if_pos h9]
    try simp only []
    by_cases hc0 : detectServiceCategoryFromSpeech sp = ""
    · rw [if_pos hc0]
      exact invP0_recat s hInv h9
    · rw [if_neg hc0]
      by_cases hd : detectServiceCategoryFromSpeech sp = "domestic"
      · rw [if_pos hd]
        exact invP0_catDom s hInv h9 _ hd
      · rw [if_neg hd]
        have hcc : detectServiceCategoryFromSpeech sp = "commercial" := by
          rcases detectCat_cases sp with h | h | h
          · exact absurd h hc0
          · exact absurd h hd
          · exact h
        exact invP0_catComm s hInv h9 _ hcc
  rw [if_neg h9]
  by_cases h10 : s.stage = "need_domestic_service_type"
  · rw [if_pos h10]
    have hc : s.data.service_category = "domestic" := hInv.2.2.2.2.2.1 (Or.inl h10)
    try simp only []
    split_ifs <;> first
      | exact hInv
      | exact invP0_domSet s hInv hc _ rfl rfl rfl (Or.inr (Or.inl (Or.inr (Or.inl rfl))))
  rw [if_neg h10]
  by_cases h11 : s.stage = "need_commercial_service_type"
  · rw [if_pos h11]
    have hc : s.data.service_category = "commercial" := hInv.2.2.2.2.2.2 (Or.inl h11)
    try simp only []
    split_ifs <;> first
      | exact hInv
      | exact invP0_commSet s hInv hc _ rfl rfl rfl (Or.inr (Or.inl (Or.inr (Or.inl rfl))))
  rw [if_neg h11]
  by_cases h12 : s.stage = "need_commercial_job_type"
  · rw [if_pos h12]
    have hc : s.data.service_category = "commercial" :=
      hInv.2.2.2.2.2.2 (Or.inr (Or.inl h12))
    try simp only []
    split_ifs <;> first
      | exact hInv
      | exact invP0_commSet s hInv hc _ rfl rfl rfl (Or.inr (Or.inl (Or.inr (Or.inr rfl))))
  rw [if_neg h12]
  by_cases h13 : s.stage = "need_domestic_property_type"
  · rw [if_pos h13]
    have hc : s.data.service_category = "domestic" :=
      hInv.2.2.2.2.2.1 (Or.inr (Or.inl h13))
    try simp only []
    split_ifs <;> first
      | exact hInv
      | exact invP0_domSet s hInv hc _ rfl rfl rfl (Or.inr (Or.inl (Or.inr (Or.inr rfl))))
      | exact invP0_domSet s hInv hc _ rfl rfl rfl (Or.inr (Or.inr (of_decide_eq_true rfl)))
  rw [if_neg h13]
  by_cases h14 : s.stage = "confirm_domestic_property_type"
  · rw [if_pos h14]
    have hc : s.data.service_category = "domestic" :=
      hInv.2.2.2.2.2.1 (Or.inr (Or.inr h14))
    split_ifs <;> first
      | exact invP0_domSet s hInv hc _ rfl rfl rfl (Or.inr (Or.inl (Or.inr (Or.inl rfl))))
      | exact invP0_update s hInv _ rfl rfl rfl rfl rfl (Or.inr (of_decide_eq_true rfl))
  rw [if_neg h14]
  by_cases h15 : s.stage = "need_domestic_postcode"
  · rw [if_pos h15]
    try simp only []
    split_ifs <;> first
      | exact hInv
      | exact invP0_update s hInv _ rfl rfl rfl rfl rfl (Or.inr (of_decide_eq_true rfl))
  rw [if_neg h15]
  by_cases h16 : s.stage = "need_domestic_bedrooms"
  · rw [if_pos h16]
    cases extractNumberP0 sp with
    | none =>
      have ht := tryCaptureBB_core s.data sp
      try simp only []
      split_ifs <;> first
        | exact invP0_update s hInv _ ht.1 ht.2.1 ht.2.2.1 ht.2.2.2.1 ht.2.2.2.2 (Or.inl rfl)
        | exact invP0_update s hInv _ ht.1 ht.2.1 ht.2.2.1 ht.2.2.2.1 ht.2.2.2.2
            (Or.inr (of_decide_eq_true rfl))
    | some n =>
      exact invP0_update s hInv _ rfl rfl rfl rfl rfl (Or.inr (of_decide_eq_true rfl))
  rw [if_neg h16]
  by_cases h17 : s.stage = "need_domestic_bathrooms"
  · rw [if_pos h17]
    cases extractNumberP0 sp with
    | none =>
      have ht := tryCaptureBB_core s.data sp
      try simp only []
      split_ifs <;> first
        | exact invP0_update s hInv _ ht.1 ht.2.1 ht.2.2.1 ht.2.2.2.1 ht.2.2.2.2 (Or.inl rfl)
        | exact inv_afterBath _ pre
            (invP0_update s hInv _ ht.1 ht.2.1 ht.2.2.1 ht.2.2.2.1 ht.2.2.2.2 (Or.inl rfl))
    | some n =>
      exact inv_afterBath _ pre (invP0_update s hInv _ rfl rfl rfl rfl rfl (Or.inl rfl))
  rw [if_neg h17]
  by_cases h18 : s.stage = "need_domestic_toilets"
  · rw [if_pos h18]
    cases extractNumberP0 sp with
    | none =>
      split_ifs <;> first
        | exact hInv
        | exact invP0_update s hInv _ rfl rfl rfl rfl rfl (Or.inr (of_decide_eq_true rfl))
    | some n =>
      exact invP0_update s hInv _ rfl rfl rfl rfl rfl (Or.inr (of_decide_eq_true rfl))
  rw [if_neg h18]
  by_cases h19 : s.stage = "need_domestic_job_type"
  · rw [if_pos h19]
    try simp only []
    split_ifs <;> first
      | exact hInv
      | exact invP0_update s hInv _ rfl rfl rfl rfl rfl (Or.inr (of_decide_eq_true rfl))
  rw [if_neg h19]
  by_cases h20 : s.stage = "need_domestic_hours"
  · rw [if_pos h20]
    cases extractNumberP0 sp with
    | none => exact hInv
    | some n =>
      exact invP0_update s hInv _ rfl rfl rfl rfl rfl (Or.inr (of_decide_eq_true rfl))
  rw [if_neg h20]
  by_cases h21 : s.stage = "need_domestic_frequency"
  · rw [if_pos h21]
    cases frequencyFromSpeech sp with
    | none => exact hInv
    | some f =>
      exact invP0_update s hInv _ rfl rfl rfl rfl rfl (Or.inr (of_decide_eq_true rfl))
  rw [if_neg h21]
  by_cases h22 : s.stage = "ask_extras_domestic_optional"
  · rw [if_pos h22]
    exact inv_askExtras s sp m pre _ hInv
  rw [if_neg h22]
  by_cases h23 : s.stage = "need_commercial_property_type"
  · rw [if_pos h23]
    have hc : s.data.service_category = "commercial" :=
      hInv.2.2.2.2.2.2 (Or.inr (Or.inr h23))
    try simp only []
    split_ifs <;> first
      | exact hInv
      | exact invP0_commSet s hInv hc _ rfl rfl rfl (Or.inr (Or.inr (of_decide_eq_true rfl)))
  rw [if_neg h23]
  by_cases h24 : s.stage = "need_commercial_rooms_or_area"
  · rw [if_pos h24]
    try simp only []
    exact invP0_update s hInv _ rfl rfl rfl rfl rfl (Or.inr (of_decide_eq_true rfl))
  rw [if_neg h24]
  by_cases h25 : s.stage = "need_commercial_toilets"
  · rw [if_pos h25]
    cases extractNumberP0 sp with
    | none => exact hInv
    | some n =>
      exact invP0_update s hInv _ rfl rfl rfl rfl rfl (Or.inr (of_decide_eq_true rfl))
  rw [if_neg h25]
  by_cases h26 : s.stage = "need_commercial_kitchens"
  · rw [if_pos h26]
    cases extractNumberP0 sp with
    | none =>
      split_ifs <;> first
        | exact hInv
        | exact invP0_update s hInv _ rfl rfl rfl rfl rfl (Or.inr (of_decide_eq_true rfl))
    | some n =>
      exact invP0_update s hInv _ rfl rfl rfl rfl rfl (Or.inr (of_decide_eq_true rfl))
  rw [if_neg h26]
  by_cases h27 : s.stage = "need_commercial_postcode"
  · rw [if_pos h27]
    try simp only []
    split_ifs <;> first
      | exact hInv
      | exact invP0_update s hInv _ rfl rfl rfl rfl rfl (Or.inr (of_decide_eq_true rfl))
  rw [if_neg h27]
  by_cases h28 : s.stage = "need_commercial_hours"
  · rw [if_pos h28]
    cases extractNumberP0 sp with
    | none => exact hInv
    | some n =>
      try simp only []
      split_ifs <;>
        exact invP0_update s hInv _ rfl rfl rfl rfl rfl (Or.inr (of_decide_eq_true rfl))
  rw [if_neg h28]
  by_cases h29 : s.stage = "need_commercial_frequency"
  · rw [if_pos h29]
    cases frequencyFromSpeech sp with
    | none => exact hInv
    | some f =>
      exact invP0_update s hInv _ rfl rfl rfl rfl rfl (Or.inr (of_decide_eq_true rfl))
  rw [if_neg h29]
  by_cases h30 : s.stage = "ask_extras_commercial_optional"
  · rw [if_pos h30]
    exact inv_askExtras s sp m pre _ hInv
  rw [if_neg h30]
  exact hInv

theorem inv_afterAreas (s : P0State) (sp : String) (m : List String) (pre : List String)
    (orc : P0Oracles) (hInv : InvP0 s) : InvP0 (p0AfterAreas s sp m pre orc).state := by
  unfold p0AfterAreas
  by_cases h1 : s.pendingExtraName ≠ ""
  · rw [if_pos h1]
    cases extractNumberP0 sp with
    | none => exact hInv
    | some qty =>
      try simp only []
      split_ifs with h2
      · exact inv_confirm _ sp pre orc
          (invP0_update s hInv _ rfl rfl rfl rfl rfl (Or.inl rfl))
      · exact inv_stage _ sp m pre orc
          (invP0_update s hInv _ rfl rfl rfl rfl rfl (Or.inl rfl))
  · rw [if_neg h1]
    split_ifs with h2
    · exact inv_confirm s sp pre orc hInv
    · exact inv_stage s sp m pre orc hInv

theorem inv_handleInput (s : P0State) (sp : String) (orc : P0Oracles) (hInv : InvP0 s) :
    InvP0 (handleInputP0 s sp orc).state := by
  unfold handleInputP0
  try simp only []
  by_cases h1 : normalizeSpaces sp = ""
  · rw [if_neg (not_not_intro h1), if_pos h1]
    exact invP0_update s hInv _ rfl rfl rfl rfl rfl (Or.inl rfl)
  · rw [if_pos h1, if_neg h1]
    by_cases h2 : containsDollar (normalizeSpaces sp) = true
    · rw [if_pos h2]
      exact invP0_update s hInv _ rfl rfl rfl rfl rfl (Or.inl rfl)
    · rw [if_neg h2]
      try simp only []
      by_cases h3 : requireClarifyBeforeRefusal (normalizeSpaces sp) = true
      · rw [if_pos h3]
        exact inv_setAreas _ _ (invP0_update s hInv _ rfl rfl rfl rfl rfl (Or.inl rfl))
      · rw [if_neg h3]
        exact inv_afterAreas _ _ _ _ orc
          (inv_addMentioned _ _
            (inv_setAreas _ _ (invP0_update s hInv _ rfl rfl rfl rfl rfl (Or.inl rfl))))

/-- C4 (amended): for the deterministic slot-filling engine, the
strengthened invariant `InvP0` holds after `/call/start`, implies that at
most one of the domestic/commercial field pairs of the draft is
populated, and is preserved by every `/call/input` turn; hence category
exclusivity holds after any sequence of caller turns of that engine. The
claim as stated is refuted by `C4_counterexample`: on the AI-extractor
iteration a turn that applies an AI proposal can populate both pairs at
once. -/
theorem C4_amended :
    InvP0 p0InitState
    ∧ (∀ s : P0State, InvP0 s → exclusiveQ s.data)
    ∧ ∀ (s : P0State) (sp : String) (orc : P0Oracles), InvP0 s →
        InvP0 (handleInputP0 s sp orc).state := by
  refine ⟨by decide, ?_, fun s sp orc hInv => inv_handleInput s sp orc hInv⟩
  intro s hInv
  obtain ⟨i1, i2, i3, i4, i5, i6, i7⟩ := hInv
  unfold exclusiveQ
  rcases i1 with h | h | h
  · exact Or.inl (i2 h).1
  · exact Or.inr (i3 h)
  · exact Or.inl (i4 h)

theorem C4_amended_witness :
    InvP0 p0InitState
    ∧ exclusiveQ (handleInputP0 p0InitState "it is for my house" ⟨none, false⟩).state.data :=
  ⟨by decide,
   C4_amended.2.1 _
     (C4_amended.2.2 p0InitState "it is for my house" ⟨none, false⟩ (by decide))⟩

/-! ### C10 char-class toolkit -/

theorem upper_bounds (c : Char) (h : isUpperAZ c = true) :
    65 ≤ c.toNat ∧ c.toNat ≤ 90 := by
  unfold isUpperAZ at h
  simp only [Bool.and_eq_true, decide_eq_true_eq] at h
  exact ⟨h.1, h.2⟩

theorem digit_bounds (c : Char) (h : isDigit09 c = true) :
    48 ≤ c.toNat ∧ c.toNat ≤ 57 := by
  unfold isDigit09 at h
  simp only [Bool.and_eq_true, decide_eq_true_eq] at h
  exact ⟨h.1, h.2⟩

theorem toNat_ofNat_small (n : Nat) (h : n < 55296) : (Char.ofNat n).toNat = n := by
  unfold Char.ofNat
  rw [dif_pos (Or.inl h)]
  rfl

theorem notWs_of_lb (c : Char) (h : 33 ≤ c.toNat) : isWsC c = false := by
  unfold isWsC
  simp only [Bool.or_eq_false_iff, decide_eq_false_iff_not]
  refine ⟨⟨⟨?_, ?_⟩, ?_⟩, ?_⟩ <;>
    { intro he; rw [he] at h; exact absurd h (by decide) }

theorem notSep_of_lb (c : Char) (h : 48 ≤ c.toNat) : isSepC c = false := by
  unfold isSepC
  rw [notWs_of_lb c (by omega)]
  simp only [Bool.false_or, decide_eq_false_iff_not]
  intro he
  rw [he] at h
  exact absurd h (by decide)

theorem lowerC_upper_toNat (c : Char) (h : isUpperAZ c = true) :
    (lowerC c).toNat = c.toNat + 32 := by
  unfold lowerC
  rw [h]
  simp only [if_true]
  exact toNat_ofNat_small _ (by have := (upper_bounds c h).2; omega)

theorem isLowerAZ_lowerC_upper (c : Char) (h : isUpperAZ c = true) :
    isLowerAZ (lowerC c) = true := by
  have hb := upper_bounds c h
  have ht := lowerC_upper_toNat c h
  unfold isLowerAZ
  simp only [Bool.and_eq_true, decide_eq_true_eq]
  constructor
  · show 97 ≤ (lowerC c).toNat
    omega
  · show (lowerC c).toNat ≤ 122
    omega

theorem upperC_lowerC_upper (c : Char) (h : isUpperAZ c = true) :
    upperC (lowerC c) = c := by
  unfold upperC
  rw [isLowerAZ_lowerC_upper c h]
  simp only [if_true]
  rw [lowerC_upper_toNat c h]
  have : c.toNat + 32 - 32 = c.toNat := by omega
  rw [this]
  exact Char.ofNat_toNat c

theorem isUpperAZ_digit (c : Char) (h : isDigit09 c = true) : isUpperAZ c = false := by
  have hb := digit_bounds c h
  unfold isUpperAZ
  simp only [Bool.and_eq_false_iff, decide_eq_false_iff_not]
  left
  intro hle
  have : 65 ≤ c.toNat := hle
  omega

theorem isLowerAZ_digit (c : Char) (h : isDigit09 c = true) : isLowerAZ c = false := by
  have hb := digit_bounds c h
  unfold isLowerAZ
  simp only [Bool.and_eq_false_iff, decide_eq_false_iff_not]
  left
  intro hle
  have : 97 ≤ c.toNat := hle
  omega

theorem lowerC_digit (c : Char) (h : isDigit09 c = true) : lowerC c = c := by
  unfold lowerC
  rw [isUpperAZ_digit c h]
  simp

theorem upperC_digit (c : Char) (h : isDigit09 c = true) : upperC c = c := by
  unfold upperC
  rw [isLowerAZ_digit c h]
  simp

/-- A letter-range literal (any char with code ≥ 58) is not a digit char. -/
theorem letter_ne_digit (k c : Char) (hk : 58 ≤ k.toNat) (hc : isDigit09 c = true) :
    (k = c) = False := by
  have hb := digit_bounds c hc
  simp only [eq_iff_iff, iff_false]
  intro he
  rw [he] at hk
  omega

theorem isLowerAZ_lowerC_digit (c : Char) (h : isDigit09 c = true) :
    isLowerAZ (lowerC c) = false := by
  rw [lowerC_digit c h]
  exact isLowerAZ_digit c h

theorem isDigit09_lowerC_digit (c : Char) (h : isDigit09 c = true) :
    isDigit09 (lowerC c) = true := by
  rw [lowerC_digit c h]
  exact h

theorem isDigit09_lowerC_upper (c : Char) (h : isUpperAZ c = true) :
    isDigit09 (lowerC c) = false := by
  have hb := upper_bounds c h
  have ht := lowerC_upper_toNat c h
  unfold isDigit09
  simp only [Bool.and_eq_false_iff, decide_eq_false_iff_not]
  right
  intro hle
  have : (lowerC c).toNat ≤ 57 := hle
  omega

theorem isWsC_lowerC_upper (c : Char) (h : isUpperAZ c = true) :
    isWsC (lowerC c) = false := by
  have := lowerC_upper_toNat c h
  have hb := upper_bounds c h
  exact notWs_of_lb _ (by omega)

theorem isSepC_lowerC_upper (c : Char) (h : isUpperAZ c = true) :
    isSepC (lowerC c) = false := by
  have := lowerC_upper_toNat c h
  have hb := upper_bounds c h
  exact notSep_of_lb _ (by omega)

theorem isWsC_digit (c : Char) (h : isDigit09 c = true) : isWsC c = false :=
  notWs_of_lb c (by have := digit_bounds c h; omega)

theorem isSepC_digit (c : Char) (h : isDigit09 c = true) : isSepC c = false :=
  notSep_of_lb c (by have := digit_bounds c h; omega)

/-- A digit char never equals a lowercase-letter literal when compared
inside the phonetic keywords (code of the literal at least 58). -/
theorem upalnum_facts (c : Char) (h : isUpAlnum c = true) :
    upperC (lowerC c) = c ∧ (isLowerAZ (lowerC c) || isDigit09 (lowerC c)) = true
    ∧ isWsC (lowerC c) = false ∧ isSepC (lowerC c) = false := by
  unfold isUpAlnum at h
  rcases Bool.or_eq_true_iff.mp h with h | h
  · exact ⟨upperC_lowerC_upper c h, by rw [isLowerAZ_lowerC_upper c h]; rfl,
      isWsC_lowerC_upper c h, isSepC_lowerC_upper c h⟩
  · rw [lowerC_digit c h]
    exact ⟨upperC_digit c h, by simp [h],
      isWsC_digit c h, isSepC_digit c h⟩

theorem isWsC_upper (c : Char) (h : isUpperAZ c = true) : isWsC c = false :=
  notWs_of_lb c (by have := upper_bounds c h; omega)

theorem isUpAlnum_upper (c : Char) (h : isUpperAZ c = true) : isUpAlnum c = true := by
  unfold isUpAlnum
  rw [h]
  rfl

theorem isUpAlnum_digit (c : Char) (h : isDigit09 c = true) : isUpAlnum c = true := by
  unfold isUpAlnum
  rw [h]
  simp

theorem isLowAlnum_lowerC_upper (c : Char) (h : isUpperAZ c = true) :
    isLowAlnum (lowerC c) = true := by
  unfold isLowAlnum
  rw [isLowerAZ_lowerC_upper c h]
  rfl

theorem isLowAlnum_digit (c : Char) (h : isDigit09 c = true) : isLowAlnum c = true := by
  unfold isLowAlnum
  rw [h]
  simp

theorem keepC_of_lowAlnum (c : Char) (h : isLowAlnum c = true) : keepC c = true := by
  unfold keepC
  unfold isLowAlnum at h
  rw [Bool.or_eq_true_iff] at h
  rcases h with h | h <;> simp [h]

theorem c10_shapeA (a b c d e : Char)
    (ha : isUpperAZ a = true) (hb : isDigit09 b = true) (hc : isDigit09 c = true)
    (hd : isUpperAZ d = true) (he : isUpperAZ e = true) :
    extractUkPostcode ⟨[a, b, ' ', c, d, e]⟩ = some ⟨[a, b, ' ', c, d, e]⟩ := by
  simp [extractUkPostcode, trimWs, phoneticLetters, phonScanF, parsePhonTail, phonKwTail,
    segPref, pcTokens, splitWs, splitWsAcc, mapToks, mapTok, lookupTok,
    joinWords, formatUkPostcode, looksLikeL,
    List.dropWhile,
    ha, hb, hc, hd, he,
    isWsC_upper a ha, isWsC_upper e he, isWsC_upper d hd,
    isWsC_digit b hb, isWsC_digit c hc,
    lowerC_digit b hb, lowerC_digit c hc,
    isLowerAZ_lowerC_upper a ha, isLowerAZ_lowerC_upper d hd, isLowerAZ_lowerC_upper e he,
    isLowerAZ_digit b hb, isLowerAZ_digit c hc,
    isWsC_lowerC_upper a ha, isWsC_lowerC_upper d hd, isWsC_lowerC_upper e he,
    isSepC_lowerC_upper a ha, isSepC_lowerC_upper d hd, isSepC_lowerC_upper e he,
    isSepC_digit b hb, isSepC_digit c hc,
    upperC_lowerC_upper a ha, upperC_lowerC_upper d hd, upperC_lowerC_upper e he,
    upperC_digit b hb, upperC_digit c hc,
    isDigit09_lowerC_upper a ha, isDigit09_lowerC_upper d hd, isDigit09_lowerC_upper e he,
    isUpAlnum_upper a ha, isUpAlnum_upper d hd, isUpAlnum_upper e he,
    isUpAlnum_digit b hb, isUpAlnum_digit c hc,
    isLowAlnum_lowerC_upper a ha, isLowAlnum_lowerC_upper d hd, isLowAlnum_lowerC_upper e he,
    isLowAlnum_digit b hb, isLowAlnum_digit c hc,
    keepC_of_lowAlnum (lowerC a) (isLowAlnum_lowerC_upper a ha),
    keepC_of_lowAlnum (lowerC d) (isLowAlnum_lowerC_upper d hd),
    keepC_of_lowAlnum (lowerC e) (isLowAlnum_lowerC_upper e he),
    keepC_of_lowAlnum b (isLowAlnum_digit b hb),
    keepC_of_lowAlnum c (isLowAlnum_digit c hc),
    letter_ne_digit 'h' b (by decide) hb,
    letter_ne_digit 'f' b (by decide) hb,
    letter_ne_digit 'a' b (by decide) hb,
    letter_ne_digit 'l' b (by decide) hb,
    letter_ne_digit 'o' c (by decide) hc,
    letter_ne_digit 't' c (by decide) hc,
    letter_ne_digit 's' c (by decide) hc,
    show isWsC ' ' = true from rfl, show lowerC ' ' = ' ' from rfl,
    show isLowerAZ ' ' = false from rfl, show isSepC ' ' = true from rfl,
    show keepC ' ' = true from rfl]

theorem isLowAlnum_lowerC_upalnum (c : Char) (h : isUpAlnum c = true) :
    isLowAlnum (lowerC c) = true := (upalnum_facts c h).2.1

theorem keepC_lowerC_upalnum (c : Char) (h : isUpAlnum c = true) :
    keepC (lowerC c) = true := by
  unfold keepC
  have h2 := (upalnum_facts c h).2.1
  unfold isLowAlnum at h2
  rw [Bool.or_eq_true_iff] at h2
  rcases h2 with h2 | h2 <;> simp [h2]

theorem isWsC_lowerC_upalnum (c : Char) (h : isUpAlnum c = true) :
    isWsC (lowerC c) = false := (upalnum_facts c h).2.2.1

theorem isSepC_lowerC_upalnum (c : Char) (h : isUpAlnum c = true) :
    isSepC (lowerC c) = false := (upalnum_facts c h).2.2.2

theorem upperC_lowerC_upalnum (c : Char) (h : isUpAlnum c = true) :
    upperC (lowerC c) = c := (upalnum_facts c h).1

theorem c10_shapeB1 (a b c d e f : Char)
    (ha : isUpperAZ a = true) (hb : isUpperAZ b = true) (hc : isDigit09 c = true)
    (hd : isDigit09 d = true) (he : isUpperAZ e = true) (hf : isUpperAZ f = true) :
    extractUkPostcode ⟨[a, b, c, ' ', d, e, f]⟩ = some ⟨[a, b, c, ' ', d, e, f]⟩ := by
  simp [extractUkPostcode, trimWs, phoneticLetters, phonScanF, parsePhonTail, phonKwTail,
    segPref, pcTokens, splitWs, splitWsAcc, mapToks, mapTok, lookupTok,
    joinWords, formatUkPostcode, looksLikeL,
    List.dropWhile,
    ha, hb, hc, hd, he, hf,
    isWsC_upper a ha, isWsC_upper b hb, isWsC_upper e he, isWsC_upper f hf,
    isWsC_digit c hc, isWsC_digit d hd,
    lowerC_digit c hc, lowerC_digit d hd,
    isLowerAZ_lowerC_upper a ha, isLowerAZ_lowerC_upper b hb,
    isLowerAZ_lowerC_upper e he, isLowerAZ_lowerC_upper f hf,
    isLowerAZ_digit c hc, isLowerAZ_digit d hd,
    isWsC_lowerC_upper a ha, isWsC_lowerC_upper b hb,
    isWsC_lowerC_upper e he, isWsC_lowerC_upper f hf,
    isSepC_lowerC_upper a ha, isSepC_lowerC_upper b hb,
    isSepC_lowerC_upper e he, isSepC_lowerC_upper f hf,
    isSepC_digit c hc, isSepC_digit d hd,
    upperC_lowerC_upper a ha, upperC_lowerC_upper b hb,
    upperC_lowerC_upper e he, upperC_lowerC_upper f hf,
    upperC_digit c hc, upperC_digit d hd,
    isDigit09_lowerC_upper a ha, isDigit09_lowerC_upper b hb,
    isDigit09_lowerC_upper e he, isDigit09_lowerC_upper f hf,
    isUpAlnum_upper a ha, isUpAlnum_upper b hb, isUpAlnum_upper e he, isUpAlnum_upper f hf,
    isUpAlnum_digit c hc, isUpAlnum_digit d hd,
    isLowAlnum_lowerC_upper a ha, isLowAlnum_lowerC_upper b hb,
    isLowAlnum_lowerC_upper e he, isLowAlnum_lowerC_upper f hf,
    isLowAlnum_digit c hc, isLowAlnum_digit d hd,
    keepC_of_lowAlnum (lowerC a) (isLowAlnum_lowerC_upper a ha),
    keepC_of_lowAlnum (lowerC b) (isLowAlnum_lowerC_upper b hb),
    keepC_of_lowAlnum (lowerC e) (isLowAlnum_lowerC_upper e he),
    keepC_of_lowAlnum (lowerC f) (isLowAlnum_lowerC_upper f hf),
    keepC_of_lowAlnum c (isLowAlnum_digit c hc),
    keepC_of_lowAlnum d (isLowAlnum_digit d hd),
    letter_ne_digit 'o' c (by decide) hc,
    letter_ne_digit 's' c (by decide) hc,
    letter_ne_digit 'i' c (by decide) hc,
    letter_ne_digit 'e' c (by decide) hc,
    letter_ne_digit 'x' c (by decide) hc,
    letter_ne_digit 'o' d (by decide) hd,
    letter_ne_digit 't' d (by decide) hd,
    letter_ne_digit 's' d (by decide) hd,
    show isWsC ' ' = true from rfl, show lowerC ' ' = ' ' from rfl,
    show isLowerAZ ' ' = false from rfl, show isSepC ' ' = true from rfl,
    show keepC ' ' = true from rfl]

theorem c10_shapeB2 (a b c d e f : Char)
    (ha : isUpperAZ a = true) (hb : isDigit09 b = true) (hc : isUpAlnum c = true)
    (hd : isDigit09 d = true) (he : isUpperAZ e = true) (hf : isUpperAZ f = true) :
    extractUkPostcode ⟨[a, b, c, ' ', d, e, f]⟩ = some ⟨[a, b, c, ' ', d, e, f]⟩ := by
  simp [extractUkPostcode, trimWs, phoneticLetters, phonScanF, parsePhonTail, phonKwTail,
    segPref, pcTokens, splitWs, splitWsAcc, mapToks, mapTok, lookupTok,
    joinWords, formatUkPostcode, looksLikeL,
    List.dropWhile,
    ha, hb, hc, hd, he, hf,
    isWsC_upper a ha, isWsC_upper e he, isWsC_upper f hf,
    isWsC_digit b hb, isWsC_digit d hd,
    lowerC_digit b hb, lowerC_digit d hd,
    isLowerAZ_lowerC_upper a ha, isLowerAZ_lowerC_upper e he, isLowerAZ_lowerC_upper f hf,
    isLowerAZ_digit b hb, isLowerAZ_digit d hd,
    isWsC_lowerC_upper a ha, isWsC_lowerC_upper e he, isWsC_lowerC_upper f hf,
    isWsC_lowerC_upalnum c hc,
    isSepC_lowerC_upper a ha, isSepC_lowerC_upper e he, isSepC_lowerC_upper f hf,
    isSepC_lowerC_upalnum c hc,
    isSepC_digit b hb, isSepC_digit d hd,
    upperC_lowerC_upper a ha, upperC_lowerC_upper e he, upperC_lowerC_upper f hf,
    upperC_lowerC_upalnum c hc,
    upperC_digit b hb, upperC_digit d hd,
    isDigit09_lowerC_upper a ha, isDigit09_lowerC_upper e he, isDigit09_lowerC_upper f hf,
    isUpAlnum_upper a ha, isUpAlnum_upper e he, isUpAlnum_upper f hf,
    isUpAlnum_digit b hb, isUpAlnum_digit d hd,
    isLowAlnum_lowerC_upper a ha, isLowAlnum_lowerC_upper e he, isLowAlnum_lowerC_upper f hf,
    isLowAlnum_lowerC_upalnum c hc, keepC_lowerC_upalnum c hc,
    isLowAlnum_digit b hb, isLowAlnum_digit d hd,
    keepC_of_lowAlnum (lowerC a) (isLowAlnum_lowerC_upper a ha),
    keepC_of_lowAlnum (lowerC e) (isLowAlnum_lowerC_upper e he),
    keepC_of_lowAlnum (lowerC f) (isLowAlnum_lowerC_upper f hf),
    keepC_of_lowAlnum b (isLowAlnum_digit b hb),
    keepC_of_lowAlnum d (isLowAlnum_digit d hd),
    letter_ne_digit 'f' b (by decide) hb,
    letter_ne_digit 'a' b (by decide) hb,
    letter_ne_digit 'l' b (by decide) hb,
    letter_ne_digit 'n' b (by decide) hb,
    letter_ne_digit 'w' b (by decide) hb,
    letter_ne_digit 'i' b (by decide) hb,
    letter_ne_digit 'h' b (by decide) hb,
    letter_ne_digit 'o' d (by decide) hd,
    letter_ne_digit 't' d (by decide) hd,
    letter_ne_digit 's' d (by decide) hd,
    show isWsC ' ' = true from rfl, show lowerC ' ' = ' ' from rfl,
    show isLowerAZ ' ' = false from rfl, show isSepC ' ' = true from rfl,
    show keepC ' ' = true from rfl]

theorem c10_shapeC (a b c d e f g : Char)
    (ha : isUpperAZ a = true) (hb : isUpperAZ b = true) (hc : isDigit09 c = true)
    (hd : isUpAlnum d = true) (he : isDigit09 e = true) (hf : isUpperAZ f = true)
    (hg : isUpperAZ g = true) :
    extractUkPostcode ⟨[a, b, c, d, ' ', e, f, g]⟩ = some ⟨[a, b, c, d, ' ', e, f, g]⟩ := by
  simp [extractUkPostcode, trimWs, phoneticLetters, phonScanF, parsePhonTail, phonKwTail,
    segPref, pcTokens, splitWs, splitWsAcc, mapToks, mapTok, lookupTok,
    joinWords, formatUkPostcode, looksLikeL,
    List.dropWhile,
    ha, hb, hc, hd, he, hf, hg,
    isWsC_upper a ha, isWsC_upper b hb, isWsC_upper f hf, isWsC_upper g hg,
    isWsC_digit c hc, isWsC_digit e he,
    lowerC_digit c hc, lowerC_digit e he,
    isLowerAZ_lowerC_upper a ha, isLowerAZ_lowerC_upper b hb,
    isLowerAZ_lowerC_upper f hf, isLowerAZ_lowerC_upper g hg,
    isLowerAZ_digit c hc, isLowerAZ_digit e he,
    isWsC_lowerC_upper a ha, isWsC_lowerC_upper b hb,
    isWsC_lowerC_upper f hf, isWsC_lowerC_upper g hg,
    isWsC_lowerC_upalnum d hd,
    isSepC_lowerC_upper a ha, isSepC_lowerC_upper b hb,
    isSepC_lowerC_upper f hf, isSepC_lowerC_upper g hg,
    isSepC_lowerC_upalnum d hd,
    isSepC_digit c hc, isSepC_digit e he,
    upperC_lowerC_upper a ha, upperC_lowerC_upper b hb,
    upperC_lowerC_upper f hf, upperC_lowerC_upper g hg,
    upperC_lowerC_upalnum d hd,
    upperC_digit c hc, upperC_digit e he,
    isDigit09_lowerC_upper a ha, isDigit09_lowerC_upper b hb,
    isDigit09_lowerC_upper f hf, isDigit09_lowerC_upper g hg,
    isUpAlnum_upper a ha, isUpAlnum_upper b hb, isUpAlnum_upper f hf, isUpAlnum_upper g hg,
    isUpAlnum_digit c hc, isUpAlnum_digit e he,
    isLowAlnum_lowerC_upper a ha, isLowAlnum_lowerC_upper b hb,
    isLowAlnum_lowerC_upper f hf, isLowAlnum_lowerC_upper g hg,
    isLowAlnum_lowerC_upalnum d hd, keepC_lowerC_upalnum d hd,
    isLowAlnum_digit c hc, isLowAlnum_digit e he,
    keepC_of_lowAlnum (lowerC a) (isLowAlnum_lowerC_upper a ha),
    keepC_of_lowAlnum (lowerC b) (isLowAlnum_lowerC_upper b hb),
    keepC_of_lowAlnum (lowerC f) (isLowAlnum_lowerC_upper f hf),
    keepC_of_lowAlnum (lowerC g) (isLowAlnum_lowerC_upper g hg),
    keepC_of_lowAlnum c (isLowAlnum_digit c hc),
    keepC_of_lowAlnum e (isLowAlnum_digit e he),
    letter_ne_digit 'o' c (by decide) hc,
    letter_ne_digit 's' c (by decide) hc,
    letter_ne_digit 'i' c (by decide) hc,
    letter_ne_digit 'h' c (by decide) hc,
    letter_ne_digit 'l' c (by decide) hc,
    letter_ne_digit 'm' c (by decide) hc,
    letter_ne_digit 'k' c (by decide) hc,
    letter_ne_digit 'p' c (by decide) hc,
    letter_ne_digit 'a' c (by decide) hc,
    letter_ne_digit 'r' c (by decide) hc,
    letter_ne_digit 'u' c (by decide) hc,
    letter_ne_digit 'v' c (by decide) hc,
    letter_ne_digit 'n' c (by decide) hc,
    letter_ne_digit 'o' e (by decide) he,
    letter_ne_digit 't' e (by decide) he,
    letter_ne_digit 's' e (by decide) he,
    show isWsC ' ' = true from rfl, show lowerC ' ' = ' ' from rfl,
    show isLowerAZ ' ' = false from rfl, show isSepC ' ' = true from rfl,
    show keepC ' ' = true from rfl]

/-- Claim C10: the decoder is idempotent on its own outputs — for every
canonically formatted valid UK postcode (outward part, one space, 3-char
inward part, i.e. `formatUkPostcode` of a compact string accepted by
`looksLikeUkPostcode`), `extractUkPostcode` returns that same string, so
a caller restating an already-captured postcode preserves it. -/
theorem C10_decoder_idempotent (compact : String)
    (h : looksLikeUkPostcode compact = true) :
    extractUkPostcode (formatUkPostcode compact) = some (formatUkPostcode compact) := by
  obtain ⟨l⟩ := compact
  rcases l with _ | ⟨a, _ | ⟨b, _ | ⟨c, _ | ⟨d, _ | ⟨e, _ | ⟨f, _ | ⟨g, _ | ⟨x, rest⟩⟩⟩⟩⟩⟩⟩⟩
  · simp [looksLikeUkPostcode, looksLikeL] at h
  · simp [looksLikeUkPostcode, looksLikeL] at h
  · simp [looksLikeUkPostcode, looksLikeL] at h
  · simp [looksLikeUkPostcode, looksLikeL] at h
  · simp [looksLikeUkPostcode, looksLikeL] at h
  · simp only [looksLikeUkPostcode, looksLikeL, Bool.and_eq_true] at h
    obtain ⟨⟨⟨⟨ha, hb⟩, hc⟩, hd⟩, he⟩ := h
    show extractUkPostcode ⟨[a, b, ' ', c, d, e]⟩ = some ⟨[a, b, ' ', c, d, e]⟩
    exact c10_shapeA a b c d e ha hb hc hd he
  · simp only [looksLikeUkPostcode, looksLikeL, Bool.or_eq_true, Bool.and_eq_true] at h
    rcases h with ⟨⟨⟨⟨⟨ha, hb⟩, hc⟩, hd⟩, he⟩, hf⟩ | ⟨⟨⟨⟨⟨ha, hb⟩, hc⟩, hd⟩, he⟩, hf⟩
    · show extractUkPostcode ⟨[a, b, c, ' ', d, e, f]⟩ = some ⟨[a, b, c, ' ', d, e, f]⟩
      exact c10_shapeB1 a b c d e f ha hb hc hd he hf
    · show extractUkPostcode ⟨[a, b, c, ' ', d, e, f]⟩ = some ⟨[a, b, c, ' ', d, e, f]⟩
      exact c10_shapeB2 a b c d e f ha hb hc hd he hf
  · simp only [looksLikeUkPostcode, looksLikeL, Bool.and_eq_true] at h
    obtain ⟨⟨⟨⟨⟨⟨ha, hb⟩, hc⟩, hd⟩, he⟩, hf⟩, hg⟩ := h
    show extractUkPostcode ⟨[a, b, c, d, ' ', e, f, g]⟩ = some ⟨[a, b, c, d, ' ', e, f, g]⟩
    exact c10_shapeC a b c d e f g ha hb hc hd he hf hg
  · simp [looksLikeUkPostcode, looksLikeL] at h

theorem C10_decoder_idempotent_witness :
    looksLikeUkPostcode "SW1A1AA" = true
    ∧ extractUkPostcode (formatUkPostcode "SW1A1AA") = some "SW1A 1AA" := by
  refine ⟨by decide, ?_⟩
  have h := C10_decoder_idempotent "SW1A1AA" (by decide)
  rw [h]
  rfl

theorem C9_minimum_hours_witness :
    3 ≤ applyMinimumHoursV2 "domestic" "regular" 1 0
    ∧ (0 : ℚ) ≤ (1 : ℚ)
    ∧ 5 ≤ (applyMinimumHoursP0
        { p0EmptyData with service_category := "commercial", job_type := "one_time",
                           preferred_hours := 1 }).preferred_hours := by
  refine ⟨(C9_minimum_hours.1 1 0).1.1, by norm_num, ?_⟩
  exact ((C9_minimum_hours.2
    { p0EmptyData with service_category := "commercial", job_type := "one_time",
                       preferred_hours := 1 } (by norm_num)).2 rfl).1 rfl |>.1

end Spark
